import Mathlib

/-!
Verification development for the ccache core (manifest store, argument
hashing, include-file bookkeeping and compile orchestration).

The C sources are shallowly embedded: file-scope globals become explicit
parameters, filesystem access (stat, content hashing) becomes pure
function parameters, and machine integers become Nat or Int with explicit
wrap-around where the width matters.  Raw C byte strings (char arrays)
are modelled as lists of naturals below 256; command-line tokens are
modelled as lists of characters.
-/

namespace Ccache

/-- Raw bytes as they appear in the manifest file format. -/
abbrev Bytes := List Nat

/-- A C string (command-line token or file path in ccache.cpp). -/
abbrev Str := List Char

/-- DIGEST_SIZE from the sources: digests are 20 bytes. -/
def DIGEST_SIZE : Nat := 20

/-- The guessed_compiler enumeration from ccache.cpp. -/
inductive guessed_compiler where
  | clang
  | gcc
  | nvcc
  | pump
  | unknown
deriving DecidableEq, Repr

/-- The recurring condition `guessed_compiler == GUESSED_CLANG ||
guessed_compiler == GUESSED_UNKNOWN` from ccache.cpp and manifest.cpp. -/
def isClangLike (g : guessed_compiler) : Bool :=
  g = guessed_compiler.clang || g = guessed_compiler.unknown

/-- Sloppiness bits and mode flags of the Config object that the claims
need.  Each SLOPPY_* bit of the bitmask becomes one boolean field. -/
structure Config where
  sloppy_file_stat_matches : Bool
  sloppy_file_stat_matches_ctime : Bool
  sloppy_include_file_mtime : Bool
  sloppy_include_file_ctime : Bool
  sloppy_system_headers : Bool
  direct_mode : Bool
  pch_external_checksum : Bool
deriving DecidableEq, Repr

/-! ## Manifest data model (manifest.cpp) -/

/-- FileInfo from manifest.cpp: information about one referenced include
file.  `index` points into the manifest's files table. -/
structure FileInfo where
  index : Nat
  digest : Bytes
  fsize : Nat
  mtime : Int
  ctime : Int
deriving DecidableEq, Repr

/-- The result structure from manifest.cpp: indexes into the file_infos
table plus the name (digest) of the result. -/
structure ManifestResult where
  file_info_indexes : List Nat
  name : Bytes
deriving DecidableEq, Repr

/-- The manifest structure from manifest.cpp.  The n_files, n_file_infos
and n_results counters are the lengths of the lists. -/
structure Manifest where
  files : List Bytes
  file_infos : List FileInfo
  results : List ManifestResult
deriving DecidableEq, Repr

/-- create_empty_manifest from manifest.cpp. -/
def create_empty_manifest : Manifest :=
  { files := [], file_infos := [], results := [] }

/-- file_stats from manifest.cpp: the cached result of one stat call. -/
structure file_stats where
  size : Nat
  mtime : Int
  ctime : Int
deriving DecidableEq, Repr

/-- Outcome of hash_source_code_file (hashutil, external to src/): the
HASH_SOURCE_CODE_ERROR and HASH_SOURCE_CODE_FOUND_TIME bits of the
returned flag word together with the computed digest. -/
structure hash_res where
  error : Bool
  found_time : Bool
  digest : Bytes
deriving DecidableEq, Repr

/-- The stat-only acceptance test of verify_result (manifest.cpp lines
494-510): with SLOPPY_FILE_STAT_MATCHES set, accept on matching mtime and
ctime, or on matching mtime alone when SLOPPY_FILE_STAT_MATCHES_CTIME is
also set. -/
def stat_only_accept (cfg : Config) (fi : FileInfo) (fs : file_stats) : Bool :=
  cfg.sloppy_file_stat_matches &&
    (if !cfg.sloppy_file_stat_matches_ctime then
      fi.mtime == fs.mtime && fi.ctime == fs.ctime
    else
      fi.mtime == fs.mtime)

/-- The precompiled-header rejection of verify_result (manifest.cpp lines
487-492): clang embeds include mtimes in a pch, so a clang-like compiler
building a pch rejects on any mtime change. -/
def pch_mtime_reject (guessed : guessed_compiler) (output_is_pch : Bool)
    (fi : FileInfo) (fs : file_stats) : Bool :=
  isClangLike guessed && output_is_pch && fi.mtime != fs.mtime

/-- Verification of a single FileInfo against the current filesystem,
the body of the loop of verify_result (manifest.cpp lines 464-535).
`st` and `hashf` are the filesystem: since they are pure functions here,
the stated_files/hashed_files memoization maps of the C code are
observationally the identity and are omitted. -/
def verify_file (cfg : Config) (guessed : guessed_compiler) (output_is_pch : Bool)
    (st : Bytes → Option file_stats) (hashf : Bytes → hash_res)
    (fi : FileInfo) (path : Bytes) : Bool :=
  match st path with
  | none => false
  | some fs =>
    if fi.fsize ≠ fs.size then false
    else if pch_mtime_reject guessed output_is_pch fi fs then false
    else if stat_only_accept cfg fi fs then true
    else
      let hr := hashf path
      if hr.error then false
      else if hr.found_time then false
      else fi.digest == hr.digest

/-- verify_result from manifest.cpp: every referenced FileInfo must pass.
An out-of-range index is undefined behavior in the C original; the model
rejects the entry. -/
def verify_result (cfg : Config) (guessed : guessed_compiler) (output_is_pch : Bool)
    (st : Bytes → Option file_stats) (hashf : Bytes → hash_res)
    (mf : Manifest) (r : ManifestResult) : Bool :=
  r.file_info_indexes.all fun idx =>
    match mf.file_infos.get? idx with
    | none => false
    | some fi =>
      match mf.files.get? fi.index with
      | none => false
      | some path => verify_file cfg guessed output_is_pch st hashf fi path

/-- manifest_get from manifest.cpp, acting on an already-parsed manifest:
walk the results newest first (the C loop runs i from n_results down to 1)
and return the name of the first entry that verifies. -/
def manifest_get (cfg : Config) (guessed : guessed_compiler) (output_is_pch : Bool)
    (st : Bytes → Option file_stats) (hashf : Bytes → hash_res)
    (mf : Manifest) : Option Bytes :=
  (mf.results.reverse.find? (verify_result cfg guessed output_is_pch st hashf mf)).map
    (·.name)

/-! ## Manifest writing path (manifest_put and helpers) -/

/-- MAX_MANIFEST_ENTRIES from manifest.cpp. -/
def MAX_MANIFEST_ENTRIES : Nat := 100

/-- MAX_MANIFEST_FILE_INFO_ENTRIES from manifest.cpp. -/
def MAX_MANIFEST_FILE_INFO_ENTRIES : Nat := 10000

/-- Index of the first occurrence of a path in the files table; the
unordered_map built by create_file_index_map (first emplace wins). -/
def file_index_of (files : List Bytes) (p : Bytes) : Option Nat :=
  (files.enum.find? (fun e => e.2 == p)).map (·.1)

/-- Index of the first occurrence of a FileInfo in the file_infos table;
the unordered_map built by create_file_info_index_map. -/
def file_info_index_of (infos : List FileInfo) (fi : FileInfo) : Option Nat :=
  (infos.enum.find? (fun e => e.2 == fi)).map (·.1)

/-- get_include_file_index from manifest.cpp: reuse the index from the
initial table snapshot, otherwise append the path. -/
def get_include_file_index (mf : Manifest) (path : Bytes)
    (mf_files : List Bytes) : Manifest × Nat :=
  match file_index_of mf_files path with
  | some i => (mf, i)
  | none => ({ mf with files := mf.files ++ [path] }, mf.files.length)

/-- The FileInfo value built by get_file_info_index (manifest.cpp lines
588-614).  st_mtime and st_ctime have one-second resolution, so the
timestamps are cached only when both are strictly older than
time_of_compilation; otherwise the -1 sentinel forces a re-hash on
verify.  A failed stat records size 0 and the sentinel. -/
def file_info_from_stat (idx : Nat) (dg : Bytes) (st : Bytes → Option file_stats)
    (toc : Int) (path : Bytes) : FileInfo :=
  match st path with
  | some s =>
    if toc > max s.mtime s.ctime then
      { index := idx, digest := dg, fsize := s.size, mtime := s.mtime, ctime := s.ctime }
    else
      { index := idx, digest := dg, fsize := s.size, mtime := -1, ctime := -1 }
  | none =>
    { index := idx, digest := dg, fsize := 0, mtime := -1, ctime := -1 }

/-- get_file_info_index from manifest.cpp: build the FileInfo for one
included file, reuse an existing identical entry, else append. -/
def get_file_info_index (st : Bytes → Option file_stats) (toc : Int)
    (mf : Manifest) (path : Bytes) (dg : Bytes)
    (mf_files : List Bytes) (mf_file_infos : List FileInfo) : Manifest × Nat :=
  let r := get_include_file_index mf path mf_files
  let fi := file_info_from_stat r.2 dg st toc path
  match file_info_index_of mf_file_infos fi with
  | some i => (r.1, i)
  | none => ({ r.1 with file_infos := r.1.file_infos ++ [fi] }, r.1.file_infos.length)

/-- add_file_info_indexes from manifest.cpp: the dedup maps are built once
from the manifest as it was before the loop, then every included file is
inserted. -/
def add_file_info_indexes (st : Bytes → Option file_stats) (toc : Int)
    (mf : Manifest) (included : List (Bytes × Bytes)) : Manifest × List Nat :=
  let files0 := mf.files
  let infos0 := mf.file_infos
  included.foldl
    (fun acc pd =>
      let r := get_file_info_index st toc acc.1 pd.1 pd.2 files0 infos0
      (r.1, acc.2 ++ [r.2]))
    (mf, [])

/-- add_result_entry from manifest.cpp: append one result referencing the
included files. -/
def add_result_entry (st : Bytes → Option file_stats) (toc : Int)
    (mf : Manifest) (result_digest : Bytes)
    (included : List (Bytes × Bytes)) : Manifest :=
  let r := add_file_info_indexes st toc mf included
  { r.1 with results := r.1.results ++ [⟨r.2, result_digest⟩] }

/-- manifest_put from manifest.cpp: `prior` is the parsed on-disk manifest
(none when the file is missing or corrupt, in which case an empty manifest
is created).  When the prior manifest holds more than MAX_MANIFEST_ENTRIES
results or more than MAX_MANIFEST_FILE_INFO_ENTRIES file infos it is
discarded.  The returned manifest is the one serialized to the tmpfile and
renamed into place. -/
def manifest_put (st : Bytes → Option file_stats) (toc : Int)
    (prior : Option Manifest) (result_name : Bytes)
    (included : List (Bytes × Bytes)) : Manifest :=
  let mf :=
    match prior with
    | none => create_empty_manifest
    | some m =>
      if m.results.length > MAX_MANIFEST_ENTRIES then create_empty_manifest
      else if m.file_infos.length > MAX_MANIFEST_FILE_INFO_ENTRIES then
        create_empty_manifest
      else m
  add_result_entry st toc mf result_name included

/-! ## Manifest file format (write_manifest / read_manifest)

Integers are big-endian and fixed-width (int_bytes_conversion.hpp).  The
XXH64 checksum primitive is external to the core, so serialization is
parametrized by an arbitrary checksum function.  Only the uncompressed
encoding (compr_type 0) is modelled; the zstd compressor is an external
collaborator. -/

/-- Big-endian encoding of the low `w` bytes of `n`, as
BYTES_FROM_UINT16/32/64 produce for w = 2, 4, 8. -/
def beBytes : Nat → Nat → Bytes
  | 0, _ => []
  | w + 1, n => beBytes w (n / 256) ++ [n % 256]

/-- Big-endian decoding, as UINT16/32/64_FROM_BYTES. -/
def bytes_to_nat (bs : Bytes) : Nat :=
  bs.foldl (fun a b => a * 256 + b) 0

/-- BYTES_FROM_UINT16. -/
def u16_bytes (n : Nat) : Bytes := beBytes 2 n

/-- BYTES_FROM_UINT32. -/
def u32_bytes (n : Nat) : Bytes := beBytes 4 n

/-- BYTES_FROM_UINT64. -/
def u64_bytes (n : Nat) : Bytes := beBytes 8 n

/-- BYTES_FROM_INT64: two's-complement big-endian encoding. -/
def i64_bytes (m : Int) : Bytes := u64_bytes ((m % (2 ^ 64)).toNat)

/-- READ_BYTES: take exactly `n` bytes from the stream. -/
def read_bytes (n : Nat) (bs : Bytes) : Option (Bytes × Bytes) :=
  if n ≤ bs.length then some (bs.take n, bs.drop n) else none

/-- READ_UINT16. -/
def read_u16 (bs : Bytes) : Option (Nat × Bytes) :=
  (read_bytes 2 bs).map fun r => (bytes_to_nat r.1, r.2)

/-- READ_UINT32. -/
def read_u32 (bs : Bytes) : Option (Nat × Bytes) :=
  (read_bytes 4 bs).map fun r => (bytes_to_nat r.1, r.2)

/-- READ_UINT64. -/
def read_u64 (bs : Bytes) : Option (Nat × Bytes) :=
  (read_bytes 8 bs).map fun r => (bytes_to_nat r.1, r.2)

/-- READ_INT64: decode two's complement. -/
def read_i64 (bs : Bytes) : Option (Int × Bytes) :=
  (read_u64 bs).map fun r =>
    (if r.1 < 2 ^ 63 then (r.1 : Int) else (r.1 : Int) - 2 ^ 64, r.2)

/-- Read `n` records with the given record reader (the counted loops of
read_manifest). -/
def read_list {α : Type} : Nat → (Bytes → Option (α × Bytes)) → Bytes →
    Option (List α × Bytes)
  | 0, _, bs => some ([], bs)
  | n + 1, rd, bs =>
    match rd bs with
    | none => none
    | some (a, rest) =>
      match read_list n rd rest with
      | none => none
      | some (as, rest') => some (a :: as, rest')

/-- One path entry on the wire: path_len as uint16 then the path bytes.
The path_len field of the file struct is strlen(path) (manifest.cpp line
112), so it is the list length here. -/
def write_file_entry (p : Bytes) : Bytes :=
  u16_bytes p.length ++ p

/-- READ_STR: length-prefixed path. -/
def read_file_entry (bs : Bytes) : Option (Bytes × Bytes) :=
  match read_u16 bs with
  | none => none
  | some (len, rest) => read_bytes len rest

/-- One include entry on the wire (write_manifest lines 428-434). -/
def write_file_info (fi : FileInfo) : Bytes :=
  u32_bytes fi.index ++ fi.digest ++ u64_bytes fi.fsize
    ++ i64_bytes fi.mtime ++ i64_bytes fi.ctime

/-- Reader for one include entry (read_manifest lines 298-304). -/
def read_file_info (bs : Bytes) : Option (FileInfo × Bytes) :=
  match read_u32 bs with
  | none => none
  | some (idx, r1) =>
    match read_bytes DIGEST_SIZE r1 with
    | none => none
    | some (dg, r2) =>
      match read_u64 r2 with
      | none => none
      | some (fsize, r3) =>
        match read_i64 r3 with
        | none => none
        | some (mtime, r4) =>
          match read_i64 r4 with
          | none => none
          | some (ctime, r5) => some (⟨idx, dg, fsize, mtime, ctime⟩, r5)

/-- One result on the wire (write_manifest lines 437-442). -/
def write_result (r : ManifestResult) : Bytes :=
  u32_bytes r.file_info_indexes.length
    ++ (r.file_info_indexes.map u32_bytes).flatten ++ r.name

/-- Reader for one result (read_manifest lines 308-315). -/
def read_result (bs : Bytes) : Option (ManifestResult × Bytes) :=
  match read_u32 bs with
  | none => none
  | some (k, r1) =>
    match read_list k read_u32 r1 with
    | none => none
    | some (idxs, r2) =>
      match read_bytes DIGEST_SIZE r2 with
      | none => none
      | some (name, r3) => some (⟨idxs, name⟩, r3)

/-- The manifest body as written between the common header and the
checksum (write_manifest lines 421-443). -/
def write_body (mf : Manifest) : Bytes :=
  u32_bytes mf.files.length ++ (mf.files.map write_file_entry).flatten
    ++ u32_bytes mf.file_infos.length ++ (mf.file_infos.map write_file_info).flatten
    ++ u32_bytes mf.results.length ++ (mf.results.map write_result).flatten

/-- Body reader (read_manifest lines 289-316). -/
def read_body (bs : Bytes) : Option (Manifest × Bytes) :=
  match read_u32 bs with
  | none => none
  | some (nf, r1) =>
    match read_list nf read_file_entry r1 with
    | none => none
    | some (files, r2) =>
      match read_u32 r2 with
      | none => none
      | some (nfi, r3) =>
        match read_list nfi read_file_info r3 with
        | none => none
        | some (infos, r4) =>
          match read_u32 r4 with
          | none => none
          | some (nr, r5) =>
            match read_list nr read_result r5 with
            | none => none
            | some (results, r6) => some (⟨files, infos, results⟩, r6)

/-- MANIFEST_MAGIC "cCmF" as bytes. -/
def MANIFEST_MAGIC : Bytes := [99, 67, 109, 70]

/-- Modelled from the spec: MANIFEST_VERSION lives in manifest.hpp, which
is not among the sources; the spec's version history gives the current
version as 2. -/
def MANIFEST_VERSION : Nat := 2

/-- COMMON_HEADER_SIZE: magic (4) + version (1) + compr_type (1) +
compr_level (1) + content_len (8). -/
def COMMON_HEADER_SIZE : Nat := 15

/-- The content_len computation of write_manifest (lines 390-403): the
size of the whole file if stored uncompressed. -/
def manifest_content_size (mf : Manifest) : Nat :=
  COMMON_HEADER_SIZE
    + 4 + (mf.files.map (fun p => 2 + p.length)).sum
    + 4 + mf.file_infos.length * (4 + DIGEST_SIZE + 8 + 8 + 8)
    + 4 + (mf.results.map (fun r => 4 + r.file_info_indexes.length * 4 + DIGEST_SIZE)).sum
    + 8

/-- Modelled from the spec: the common header written by
common_header_initialize_for_writing (common_header.cpp is not among the
sources).  Layout per the spec: magic, version u8, compr u8 (0 = none),
level i8, content_len u64. -/
def write_common_header (content_len : Nat) : Bytes :=
  MANIFEST_MAGIC ++ [MANIFEST_VERSION % 256, 0, 0] ++ u64_bytes content_len

/-- Modelled from the spec: the header validation done by
common_header_initialize_for_reading — check magic and version, accept
compression type 0, note content_len (used only for preallocation). -/
def read_common_header (bs : Bytes) : Option Bytes :=
  match read_bytes 4 bs with
  | none => none
  | some (magic, r1) =>
    if magic ≠ MANIFEST_MAGIC then none
    else
      match r1 with
      | version :: compr :: _level :: r2 =>
        if version ≠ MANIFEST_VERSION % 256 then none
        else if compr ≠ 0 then none
        else
          match read_u64 r2 with
          | none => none
          | some (_content_len, r3) => some r3
      | _ => none

/-- write_manifest from manifest.cpp (uncompressed): header, body, then
the XXH64 checksum of the body bytes. -/
def write_manifest (xxh : Bytes → Nat) (mf : Manifest) : Bytes :=
  write_common_header (manifest_content_size mf)
    ++ write_body mf ++ u64_bytes (xxh (write_body mf))

/-- read_manifest from manifest.cpp (uncompressed): validate the header,
parse the body, then compare the checksum of the body bytes actually
consumed against the stored checksum. -/
def read_manifest (xxh : Bytes → Nat) (bs : Bytes) : Option Manifest :=
  match read_common_header bs with
  | none => none
  | some body =>
    match read_body body with
    | none => none
    | some (mf, rest) =>
      match read_u64 rest with
      | none => none
      | some (expected, _) =>
        if xxh (body.take (body.length - rest.length)) = expected then some mf
        else none

/-- The representation bounds a manifest must satisfy to be storable in
the C structs: uint32 table sizes, uint16 path lengths, DIGEST_SIZE
digests, uint64 file sizes and int64 timestamps. -/
def manifest_wf (mf : Manifest) : Prop :=
  mf.files.length < 2 ^ 32
    ∧ (∀ p ∈ mf.files, p.length < 2 ^ 16)
    ∧ mf.file_infos.length < 2 ^ 32
    ∧ (∀ fi ∈ mf.file_infos,
        fi.index < 2 ^ 32 ∧ fi.digest.length = DIGEST_SIZE ∧ fi.fsize < 2 ^ 64
          ∧ -2 ^ 63 ≤ fi.mtime ∧ fi.mtime < 2 ^ 63
          ∧ -2 ^ 63 ≤ fi.ctime ∧ fi.ctime < 2 ^ 63)
    ∧ mf.results.length < 2 ^ 32
    ∧ (∀ r ∈ mf.results,
        r.file_info_indexes.length < 2 ^ 32
          ∧ (∀ i ∈ r.file_info_indexes, i < 2 ^ 32)
          ∧ r.name.length = DIGEST_SIZE)

instance (mf : Manifest) : Decidable (manifest_wf mf) := by
  unfold manifest_wf
  infer_instance

/-! ## String helpers for the ccache.cpp models -/

/-- str_startswith from util.c: does `s` start with `p`. -/
def str_startswith (s p : Str) : Bool := p.isPrefixOf s

/-- strstr as a boolean: does the haystack contain the needle. -/
def strstr_found : Str → Str → Bool
  | hay, nd =>
    if nd.isPrefixOf hay then true
    else
      match hay with
      | [] => false
      | _ :: t => strstr_found t nd

/-- x_basename: the component after the last slash. -/
def basename_of (p : Str) : Str :=
  p.foldl (fun acc c => if c = '/' then [] else acc ++ [c]) []

/-- get_extension: the suffix from the last dot (inclusive), or empty. -/
def extension_of (p : Str) : Str :=
  let afterDot := (p.reverse.takeWhile (fun c => c ≠ '.')).reverse
  if afterDot.length = p.length then [] else '.' :: afterDot

/-- x_dirname: everything before the last slash ("." when there is no
slash, "/" for a file in the root). -/
def dirname_of (p : Str) : Str :=
  let afterSlash := p.reverse.takeWhile (fun c => c ≠ '/')
  if afterSlash.length = p.length then ['.']
  else
    let d := p.take (p.length - afterSlash.length - 1)
    if d = [] then ['/'] else d

/-- guess_compiler from ccache.cpp: classify the compiler by substring
tests on the basename of argv[0]. -/
def guess_compiler (path : Str) : guessed_compiler :=
  let name := basename_of path
  if strstr_found name "clang".data then .clang
  else if strstr_found name "gcc".data || strstr_found name "g++".data then .gcc
  else if strstr_found name "nvcc".data then .nvcc
  else if name = "pump".data || name = "distcc-pump".data then .pump
  else .unknown

/-- is_precompiled_header from ccache.cpp: .gch/.pch/.pth extension, or a
parent directory with a .gch extension. -/
def is_precompiled_header (path : Str) : Bool :=
  let ext := extension_of path
  let dir_ext := extension_of (dirname_of path)
  ext = ".gch".data || ext = ".pch".data || ext = ".pth".data
    || dir_ext = ".gch".data

/-! ## Argument hashing (calculate_result_name, ccache.cpp lines 1860-2016)

The hash is modelled as the trace of update events fed to the digest; two
equal traces produce equal digests.  The compopt classification tables
live in compopt.cpp, which is not among the sources, so the table lookups
`compopt_affects_cpp` and `compopt_takes_arg` are parameters;
compopt_short applies the table to the two-character prefix of the
option. -/

/-- One event fed into the streaming hash. -/
inductive hash_ev where
  | delim (s : Str)
  | str (s : Str)
  | specs (path : Str)
  | plugin (path : Str)
  | ccbin (path : Str)
deriving DecidableEq, Repr

/-- The per-invocation inputs of the argument-hashing loop: the guessed
compiler and the globals it consults, plus the external compopt tables
and an existence-only view of stat for the file probes of -specs,
-fplugin, -Xclang -load and -ccbin. -/
structure ArgHashCfg where
  direct_mode : Bool
  output_is_pch : Bool
  using_pch : Bool
  generating_dependencies : Bool
  output_dep : Str
  affects_cpp : Str → Bool
  takes_arg : Str → Bool
  stat_ok : Str → Bool

/-- The payload of -specs= and --specs= (calculate_result_name lines
1959-1964). -/
def specs_arg (a : Str) : Option Str :=
  if str_startswith a "-specs=".data then some (a.drop 7)
  else if str_startswith a "--specs=".data then some (a.drop 8)
  else none

/-- The argument loop of calculate_result_name (lines 1878-2010), with
`is_clang` precomputed at the top of the function as in the source.
Returns the hash-event trace and the found_ccbin flag. -/
def hash_arg_list (cfg : ArgHashCfg) (is_clang : Bool) : List Str → List hash_ev × Bool
  | [] => ([], false)
  | a :: rest =>
    -- -L with a separate directory doesn't affect compilation (except clang)
    if a = "-L".data ∧ rest ≠ [] ∧ is_clang = false then
      match rest with
      | _ :: rest' => hash_arg_list cfg is_clang rest'
      | [] => ([], false)
    else if str_startswith a "-L".data ∧ is_clang = false then
      hash_arg_list cfg is_clang rest
    else if str_startswith a "-Wl,".data ∧ is_clang = false then
      hash_arg_list cfg is_clang rest
    else if str_startswith a "-fdebug-prefix-map=".data then
      let r := hash_arg_list cfg is_clang rest
      (.delim "arg".data :: .str "-fdebug-prefix-map=".data :: r.1, r.2)
    else if str_startswith a "-ffile-prefix-map=".data then
      let r := hash_arg_list cfg is_clang rest
      (.delim "arg".data :: .str "-ffile-prefix-map=".data :: r.1, r.2)
    else if str_startswith a "-fmacro-prefix-map=".data then
      let r := hash_arg_list cfg is_clang rest
      (.delim "arg".data :: .str "-fmacro-prefix-map=".data :: r.1, r.2)
    -- in preprocessor mode (and not for pch), options that only affect the
    -- preprocessor don't contribute to the hash
    else if (!cfg.direct_mode && !cfg.output_is_pch && !cfg.using_pch)
        ∧ cfg.affects_cpp a then
      if cfg.takes_arg a then
        match rest with
        | _ :: rest' => hash_arg_list cfg is_clang rest'
        | [] => ([], false)
      else hash_arg_list cfg is_clang rest
    else if (!cfg.direct_mode && !cfg.output_is_pch && !cfg.using_pch)
        ∧ cfg.affects_cpp (a.take 2) then
      hash_arg_list cfg is_clang rest
    -- when generating dependencies, the dependency filename is skipped
    else if cfg.generating_dependencies ∧ str_startswith a "-Wp,-MD,".data
        ∧ (a.drop 8).contains ',' = false then
      let r := hash_arg_list cfg is_clang rest
      (.str (a.take 8) :: r.1, r.2)
    else if cfg.generating_dependencies ∧ str_startswith a "-Wp,-MMD,".data
        ∧ (a.drop 9).contains ',' = false then
      let r := hash_arg_list cfg is_clang rest
      (.str (a.take 9) :: r.1, r.2)
    else if cfg.generating_dependencies ∧ str_startswith a "-MF".data then
      -- hash the "-MF" part; skip a separate filename argument unless the
      -- dependency file is /dev/null
      if cfg.output_dep ≠ "/dev/null".data ∧ a.length = 3 then
        match rest with
        | _ :: rest' =>
          let r := hash_arg_list cfg is_clang rest'
          (.delim "arg".data :: .str (a.take 3) :: r.1, r.2)
        | [] => ([.delim "arg".data, .str (a.take 3)], false)
      else
        let r := hash_arg_list cfg is_clang rest
        (.delim "arg".data :: .str (a.take 3) :: r.1, r.2)
    else if (specs_arg a).isSome ∧ cfg.stat_ok ((specs_arg a).getD []) then
      let r := hash_arg_list cfg is_clang rest
      (.delim "specs".data :: .specs ((specs_arg a).getD []) :: r.1, r.2)
    else if str_startswith a "-fplugin=".data ∧ cfg.stat_ok (a.drop 9) then
      let r := hash_arg_list cfg is_clang rest
      (.delim "plugin".data :: .plugin (a.drop 9) :: r.1, r.2)
    else if a = "-Xclang".data ∧ rest.take 2 = ["-load".data, "-Xclang".data]
        ∧ rest.length ≥ 3 ∧ cfg.stat_ok (rest.getD 2 []) then
      let r := hash_arg_list cfg is_clang (rest.drop 3)
      (.delim "plugin".data :: .plugin (rest.getD 2 []) :: r.1, r.2)
    else if (a = "-ccbin".data ∨ a = "--compiler-bindir".data) ∧ rest ≠ []
        ∧ cfg.stat_ok (rest.getD 0 []) then
      let r := hash_arg_list cfg is_clang (rest.drop 1)
      (.delim "ccbin".data :: .ccbin (rest.getD 0 []) :: r.1, true)
    else
      -- all other arguments are included in the hash
      if rest ≠ [] ∧ cfg.takes_arg a then
        match rest with
        | v :: rest' =>
          let r := hash_arg_list cfg is_clang rest'
          (.delim "arg".data :: .str a :: .delim "arg".data :: .str v :: r.1, r.2)
        | [] => ([.delim "arg".data, .str a], false)
      else
        let r := hash_arg_list cfg is_clang rest
        (.delim "arg".data :: .str a :: r.1, r.2)
  termination_by args => args.length
  decreasing_by all_goals (simp_all [List.length_drop]; try omega)

/-- The argument-dependent portion of calculate_result_name: the loop over
argv[1..] plus the trailing "/dev/null dependency file" delimiter (lines
2012-2016).  `is_clang` is derived from the guessed compiler exactly as at
line 1874. -/
def result_name_arg_events (guessed : guessed_compiler) (cfg : ArgHashCfg)
    (args : List Str) : List hash_ev × Bool :=
  let r := hash_arg_list cfg (isClangLike guessed) args
  (r.1
      ++ (if cfg.generating_dependencies && cfg.output_dep = "/dev/null".data then
            [.delim "/dev/null dependency file".data]
          else []),
    r.2)

/-- The prefix-map application step of hash_common_info (ccache.cpp lines
1761-1776): each stored map has the form old=new; splitting at the first
equals sign, a cwd that starts with old is rewritten to new followed by
the remainder, and a map without an equals sign is skipped. -/
def apply_debug_prefix_map (cwd : Str) (map : Str) : Str :=
  if '=' ∈ map then
    let old_path := map.takeWhile (fun c => c ≠ '=')
    let new_path := (map.dropWhile (fun c => c ≠ '=')).drop 1
    if str_startswith cwd old_path then new_path ++ cwd.drop old_path.length
    else cwd
  else cwd

/-- The CWD hashing step of hash_common_info (ccache.cpp lines
1759-1784): when debug info is being generated and hash_dir is enabled,
the current working directory — rewritten through every entry of
debug_prefix_maps in order — is mixed into the common hash.
debug_prefix_maps accumulates the value part of each -fdebug-prefix-map=
and -ffile-prefix-map= option (ccache.cpp lines 2618-2626), so this is
the one place where that value can reach the result key. -/
def hash_cwd_events (generating_debuginfo : Bool) (hash_dir : Bool)
    (cwd : Str) (debug_prefix_maps : List Str) : List hash_ev :=
  if generating_debuginfo && hash_dir then
    [hash_ev.delim "cwd".data,
      hash_ev.str (debug_prefix_maps.foldl apply_debug_prefix_map cwd)]
  else []

/-! ## The -arch handling of cc_process_args (ccache.cpp lines 2513-2530) -/

/-- MAX_ARCH_ARGS from ccache.cpp: the capacity of the arch_args array. -/
def MAX_ARCH_ARGS : Nat := 10

/-- The -arch accumulation of cc_process_args, restricted to command lines
whose tokens are either "-arch value" pairs or tokens that match none of
the other option branches (those are abstracted as pass-through).  When
arch_args_size equals MAX_ARCH_ARGS - 1 the option is counted as
unsupported and processing fails (returns none); a trailing "-arch"
without a value reads past argv in the C code and is modelled as a
failure as well. -/
def cc_process_args_arch : List Str → List Str → Option (List Str)
  | [], archs => some archs
  | a :: rest, archs =>
    if a = "-arch".data then
      if archs.length = MAX_ARCH_ARGS - 1 then none
      else
        match rest with
        | [] => none
        | v :: rest' => cc_process_args_arch rest' (archs ++ [v])
    else cc_process_args_arch rest archs

/-! ## remember_include_file (ccache.cpp lines 581-753) -/

/-- The slice of struct stat that remember_include_file consults. -/
structure inc_stat where
  is_dir : Bool
  is_reg : Bool
  size : Nat
  mtime : Int
  ctime : Int
deriving DecidableEq, Repr

/-- How one call to remember_include_file ended: an early `goto out`
(nothing recorded, direct mode untouched), a `goto failure` (direct mode
disabled), or normal completion. -/
inductive ri_class where
  | ignored
  | failed
  | completed
deriving DecidableEq, Repr

/-- The observable effect of one remember_include_file call: the updated
g_included_files map, the direct_mode flag afterwards, and which exit was
taken. -/
structure ri_out where
  included : List (Str × Bytes)
  direct_mode : Bool
  cls : ri_class
deriving Repr

/-- One entry of the ignore_headers test (lines 645-658): prefix match
where the boundary is a slash or the end of the path. -/
def ignore_hit (canonical ig : Str) : Bool :=
  ig.length ≤ canonical.length && ig.isPrefixOf canonical
    && (ig.getLastD ' ' = '/' || canonical.length = ig.length
        || canonical.getD ig.length ' ' = '/')

/-- remember_include_file from ccache.cpp.  The filesystem is the pure
`st`; content hashing is `hash_file_ok`/`file_digest` for the raw file
hash used on precompiled headers and `hsrc` for hash_source_code_string
(whose error bit also stands for the read_file failure at lines 712-718).
The updates of cpp_hash and depend_mode_hash are not modelled; only the
g_included_files update and the direct-mode flag are. -/
def remember_include_file (cfg : Config) (input_file : Str)
    (ignore_headers : List Str) (toc : Int)
    (st : Str → Option inc_stat)
    (hash_file_ok : Str → Bool) (file_digest : Str → Bytes)
    (hsrc : Str → hash_res)
    (included : List (Str × Bytes)) (path : Str) (system : Bool) : ri_out :=
  let out : ri_out := ⟨included, cfg.direct_mode, .ignored⟩
  let failure : ri_out := ⟨included, false, .failed⟩
  -- typically <built-in> or <command-line>
  if 2 ≤ path.length ∧ path.headD ' ' = '<' ∧ path.getLastD ' ' = '>' then out
  else if path = input_file then out
  else if system ∧ cfg.sloppy_system_headers then out
  else if (included.find? (fun e => e.1 = path)).isSome then out
  else
    match st path with
    | none => failure
    | some s =>
      if s.is_dir then out
      else if s.is_reg = false then failure
      else
        -- clang uses ./header.h; canonicalize for the ignore comparison
        let canonical := if path.take 2 = "./".data then path.drop 2 else path
        if ignore_headers.any (ignore_hit canonical) then out
        else if cfg.sloppy_include_file_mtime = false ∧ s.mtime ≥ toc then failure
        else if cfg.sloppy_include_file_ctime = false ∧ s.ctime ≥ toc then failure
        else if is_precompiled_header path then
          let hpath :=
            if cfg.pch_external_checksum ∧ (st (path ++ ".sum".data)).isSome then
              path ++ ".sum".data
            else path
          if hash_file_ok hpath = false then failure
          else if cfg.direct_mode then
            ⟨included ++ [(hpath, file_digest hpath)], cfg.direct_mode, .completed⟩
          else ⟨included, cfg.direct_mode, .completed⟩
        else if cfg.direct_mode then
          let h := hsrc path
          if h.error ∨ h.found_time then failure
          else ⟨included ++ [(path, h.digest)], cfg.direct_mode, .completed⟩
        else ⟨included, cfg.direct_mode, .completed⟩

/-! ## from_cache early return (ccache.cpp lines 2144-2163) -/

/-- The fromcache_call_mode enumeration. -/
inductive fromcache_call_mode where
  | direct
  | cpp
deriving DecidableEq, Repr

/-- The early returns at the top of from_cache: the recache override, and
the refusal to serve a cached precompiled header from the
preprocessor-mode lookup under a clang-like compiler.  Returns true when
from_cache gives up without consulting the result store. -/
def from_cache_early_return (recache : Bool) (guessed : guessed_compiler)
    (output_is_pch : Bool) (mode : fromcache_call_mode) : Bool :=
  recache
    || (isClangLike guessed && output_is_pch && mode = fromcache_call_mode.cpp)

/-! ## The post-execution path of to_cache (ccache.cpp lines 1331-1508) -/

/-- The inputs that decide the fate of to_cache after the real compiler
has run. -/
structure tc_in where
  stdout_stat_ok : Bool
  stdout_size : Nat
  guessed : guessed_compiler
  has_cpp_stderr : Bool
  merge_ok : Bool
  status : Int
  stderr_open_ok : Bool
  depend_mode : Bool
  depend_name_ok : Bool
  obj_stat_ok : Bool
  obj_size : Nat
  stderr_stat_ok : Bool
deriving DecidableEq, Repr

/-- The observable outcome of the post-execution path of to_cache:
whether the process exits with a propagated compiler status, whether the
captured stderr was streamed to fd 2, whether result_put ran, whether
update_manifest_file ran, and whether the run fell back through
failed(). -/
structure tc_out where
  exit_status : Option Int
  streamed_stderr : Bool
  stored_result : Bool
  updated_manifest : Bool
  fellback : Bool
deriving DecidableEq, Repr

/-- The value of tc_out on every failed() path. -/
def tc_fallback : tc_out :=
  ⟨none, false, false, false, true⟩

/-- to_cache from the stat of the captured stdout onwards.  The stderr
merge failure points (lines 1353-1389) are collapsed into merge_ok, and
the success path ends with result_put followed by update_manifest_file
(lines 1464 and 1507). -/
def to_cache_after_execute (i : tc_in) : tc_out :=
  if i.stdout_stat_ok = false then tc_fallback
  else if i.stdout_size ≠ 0 ∧ i.guessed ≠ guessed_compiler.pump then tc_fallback
  else if i.has_cpp_stderr ∧ i.merge_ok = false then tc_fallback
  else if i.status ≠ 0 then
    if i.stderr_open_ok then ⟨some i.status, true, false, false, false⟩
    else tc_fallback
  else if i.depend_mode ∧ i.depend_name_ok = false then tc_fallback
  else if i.obj_stat_ok = false then tc_fallback
  else if i.obj_size = 0 then tc_fallback
  else if i.stderr_stat_ok = false then tc_fallback
  else ⟨none, true, true, true, false⟩

/-! ## Shared properties used by the claim statements -/

/-- The situation of claim C9: some include file referenced by the result
passes the size check, is not accepted by a stat-only match and not
rejected by the pch mtime rule, and re-hashing it now reports the
HASH_SOURCE_CODE_FOUND_TIME flag (with no hash error). -/
def rehash_hits_time_macro (cfg : Config) (guessed : guessed_compiler)
    (output_is_pch : Bool) (st : Bytes → Option file_stats)
    (hashf : Bytes → hash_res) (mf : Manifest) (r : ManifestResult) : Prop :=
  ∃ idx ∈ r.file_info_indexes, ∃ fi, mf.file_infos.get? idx = some fi ∧
    ∃ path, mf.files.get? fi.index = some path ∧
      ∃ fs, st path = some fs ∧ fi.fsize = fs.size ∧
        pch_mtime_reject guessed output_is_pch fi fs = false ∧
        stat_only_accept cfg fi fs = false ∧
        (hashf path).error = false ∧ (hashf path).found_time = true

/-- A prefix of the argument vector hashes independently of what follows
it: the loop consumes it without looking past its end.  This is the
alignment condition of claim C5. -/
def consumes_cleanly (cfg : ArgHashCfg) (is_clang : Bool) (pre : List Str) : Prop :=
  ∀ rest, hash_arg_list cfg is_clang (pre ++ rest)
    = ((hash_arg_list cfg is_clang pre).1 ++ (hash_arg_list cfg is_clang rest).1,
      (hash_arg_list cfg is_clang pre).2 || (hash_arg_list cfg is_clang rest).2)

/-! # Theorems -/

/-! ### Helper lemmas for the manifest writing path -/

theorem get_file_info_index_file_infos_length (st : Bytes → Option file_stats)
    (toc : Int) (mf : Manifest) (path dg : Bytes)
    (files0 : List Bytes) (infos0 : List FileInfo) :
    (get_file_info_index st toc mf path dg files0 infos0).1.file_infos.length
        ≤ mf.file_infos.length + 1
      ∧ (get_file_info_index st toc mf path dg files0 infos0).1.results
        = mf.results := by
  unfold get_file_info_index get_include_file_index
  cases file_index_of files0 path <;>
    · dsimp only
      split <;> simp

theorem add_file_info_indexes_bounds (st : Bytes → Option file_stats) (toc : Int)
    (files0 : List Bytes) (infos0 : List FileInfo) :
    ∀ (included : List (Bytes × Bytes)) (acc : Manifest × List Nat),
      (included.foldl
          (fun acc pd =>
            let r := get_file_info_index st toc acc.1 pd.1 pd.2 files0 infos0
            (r.1, acc.2 ++ [r.2]))
          acc).1.file_infos.length
          ≤ acc.1.file_infos.length + included.length
        ∧ (included.foldl
            (fun acc pd =>
              let r := get_file_info_index st toc acc.1 pd.1 pd.2 files0 infos0
              (r.1, acc.2 ++ [r.2]))
            acc).1.results = acc.1.results := by
  intro included
  induction included with
  | nil => intro acc; simp
  | cons pd tl ih =>
    intro acc
    rw [List.foldl_cons]
    dsimp only
    have hstep := get_file_info_index_file_infos_length st toc acc.1 pd.1 pd.2
      files0 infos0
    have htl := ih ((get_file_info_index st toc acc.1 pd.1 pd.2 files0 infos0).1,
      acc.2 ++ [(get_file_info_index st toc acc.1 pd.1 pd.2 files0 infos0).2])
    constructor
    · have h1 := htl.1
      have h2 := hstep.1
      simp only [List.length_cons] at h1 ⊢
      omega
    · rw [htl.2, hstep.2]

/-! ### Claim C2 -/

/-- Claim C2 as stated is false: manifest_put discards the prior manifest
only when it already holds strictly more than MAX_MANIFEST_ENTRIES
results, so a prior manifest with exactly 100 results (reachable by 100
puts) is kept and the written manifest has 101 results. -/
theorem C2_cap_counterexample :
    ¬ ((manifest_put (fun _ => none) 0
          (some ⟨[], [], List.replicate 100 ⟨[], []⟩⟩) [] []).results.length
        ≤ MAX_MANIFEST_ENTRIES) := by
  decide

/-- Claim C2, amended: after manifest_put the written manifest satisfies
n_results ≤ MAX_MANIFEST_ENTRIES + 1 = 101 and n_file_infos ≤
MAX_MANIFEST_FILE_INFO_ENTRIES + |included_files|; the caps are checked
against the prior manifest before the new entry is appended, so one put
may exceed them by the size of that entry. -/
theorem C2_cap_amended (st : Bytes → Option file_stats) (toc : Int)
    (prior : Option Manifest) (result_name : Bytes)
    (included : List (Bytes × Bytes)) :
    (manifest_put st toc prior result_name included).results.length
        ≤ MAX_MANIFEST_ENTRIES + 1
      ∧ (manifest_put st toc prior result_name included).file_infos.length
        ≤ MAX_MANIFEST_FILE_INFO_ENTRIES + included.length := by
  unfold manifest_put
  set base : Manifest :=
    match prior with
    | none => create_empty_manifest
    | some m =>
      if m.results.length > MAX_MANIFEST_ENTRIES then create_empty_manifest
      else if m.file_infos.length > MAX_MANIFEST_FILE_INFO_ENTRIES then
        create_empty_manifest
      else m
    with hbase
  have hb : base.results.length ≤ MAX_MANIFEST_ENTRIES
      ∧ base.file_infos.length ≤ MAX_MANIFEST_FILE_INFO_ENTRIES := by
    rw [hbase]
    match prior with
    | none => simp [create_empty_manifest]
    | some m =>
      by_cases h1 : m.results.length > MAX_MANIFEST_ENTRIES
      · simp [h1, create_empty_manifest]
      · by_cases h2 : m.file_infos.length > MAX_MANIFEST_FILE_INFO_ENTRIES
        · simp [h1, h2, create_empty_manifest]
        · simp [h1, h2]
          omega
  unfold add_result_entry add_file_info_indexes
  have hfold := add_file_info_indexes_bounds st toc base.files base.file_infos
    included (base, [])
  constructor
  · simp only [List.length_append, List.length_singleton]
    have := hfold.2
    simp only [this]
    omega
  · have := hfold.1
    simp only at this ⊢
    omega

/-! ### Claim C3 -/

/-- Claim C3 as stated is false: with time_of_compilation 100 and a file
whose mtime and ctime are both 99, the claimed condition
stat(time_of_compilation) - stat.mtime ≤ 1s holds, yet get_file_info_index
stores the observed timestamps rather than the -1 sentinel, because the
code stores the sentinel only when time_of_compilation ≤ max(mtime, ctime). -/
theorem C3_sentinel_counterexample :
    ((100 : Int) - 99 ≤ 1)
      ∧ (file_info_from_stat 0 [1]
          (fun p => if p = [97] then some ⟨5, 99, 99⟩ else none) 100 [97]).mtime
        ≠ -1 := by
  decide

/-- Claim C3, amended: for an include file whose stat succeeds, the stored
FileInfo carries the observed mtime and ctime exactly when
time_of_compilation is strictly greater than both of them (equivalently,
strictly greater than their maximum); otherwise mtime = ctime = -1 is
stored to force a re-hash on future verification.  The file size is the
stat size either way. -/
theorem C3_sentinel_amended (idx : Nat) (dg : Bytes)
    (st : Bytes → Option file_stats) (toc : Int) (path : Bytes)
    (s : file_stats) (h : st path = some s) :
    (toc > max s.mtime s.ctime →
        file_info_from_stat idx dg st toc path
          = ⟨idx, dg, s.size, s.mtime, s.ctime⟩)
      ∧ (toc ≤ max s.mtime s.ctime →
        (file_info_from_stat idx dg st toc path).mtime = -1
          ∧ (file_info_from_stat idx dg st toc path).ctime = -1
          ∧ (file_info_from_stat idx dg st toc path).fsize = s.size) := by
  unfold file_info_from_stat
  rw [h]
  constructor
  · intro hgt
    simp [hgt]
  · intro hle
    have hn : ¬ toc > max s.mtime s.ctime := by omega
    simp [hn]

/-- Concrete instance of the amended C3: a file statted well after its
last write keeps its observed timestamps. -/
theorem C3_sentinel_witness :
    file_info_from_stat 0 [1]
        (fun p => if p = [97] then some ⟨5, 10, 20⟩ else none) 50 [97]
      = ⟨0, [1], 5, 10, 20⟩ :=
  (C3_sentinel_amended 0 [1]
      (fun p => if p = [97] then some ⟨5, 10, 20⟩ else none) 50 [97]
      ⟨5, 10, 20⟩ (by decide)).1 (by decide)

/-! ### Claim C4 -/

/-- Claim C4: the spec, the MAX_ARCH_ARGS capacity of the arch_args array
and the code's own log message ("ccache supports at most 10") all say ten
-arch options are supported, but cc_process_args fails as soon as
arch_args_size equals MAX_ARCH_ARGS - 1, i.e. on the tenth -arch option:
a command line with ten -arch pairs is rejected as an unsupported option
while nine pairs are accepted (and the stored list never grows beyond
nine entries). -/
theorem C4_arch_limit_bug :
    cc_process_args_arch
        ((List.replicate 10 ["-arch".data, "x86_64".data]).flatten) [] = none
      ∧ cc_process_args_arch
          ((List.replicate 9 ["-arch".data, "x86_64".data]).flatten) []
        = some (List.replicate 9 "x86_64".data)
      ∧ MAX_ARCH_ARGS = 10 := by
  decide

/-! ### Claim C7 -/

/-- Claim C7: when the real compiler exits with a nonzero status on the
cache-miss path, to_cache stores nothing — result_put and
update_manifest_file are never reached — and, provided the captured
stdout was empty (or the compiler is distcc-pump), the stderr merge
succeeded and the captured stderr file can be opened, ccache streams the
captured stderr to its own stderr and exits with exactly the compiler's
status. -/
theorem C7_compiler_failure (i : tc_in) (hstatus : i.status ≠ 0) :
    (to_cache_after_execute i).stored_result = false
      ∧ (to_cache_after_execute i).updated_manifest = false
      ∧ (i.stdout_stat_ok = true →
          (i.stdout_size = 0 ∨ i.guessed = guessed_compiler.pump) →
          (i.has_cpp_stderr = true → i.merge_ok = true) →
          i.stderr_open_ok = true →
          to_cache_after_execute i = ⟨some i.status, true, false, false, false⟩) := by
  unfold to_cache_after_execute tc_fallback
  refine ⟨?_, ?_, ?_⟩
  · split_ifs <;> simp_all
  · split_ifs <;> simp_all
  · intro h1 h2 h3 h4
    rcases h2 with h2 | h2 <;> simp_all

/-- Concrete instance of C7: a compiler failing with status 1 and clean
stdout leads to exit status 1 with the captured stderr streamed and no
cache write. -/
theorem C7_compiler_failure_witness :
    to_cache_after_execute
        ⟨true, 0, guessed_compiler.gcc, false, true, 1, true, false, true,
          true, 1, true⟩
      = ⟨some 1, true, false, false, false⟩ :=
  (C7_compiler_failure
      ⟨true, 0, guessed_compiler.gcc, false, true, 1, true, false, true,
        true, 1, true⟩
      (by decide)).2.2 rfl (Or.inl rfl) (fun _ => rfl) rfl

/-! ### Claim C10 -/

/-- Claim C10: a compiler whose basename contains none of the known
patterns is classified GUESSED_UNKNOWN, and GUESSED_UNKNOWN behaves
exactly like GUESSED_CLANG in every clang-conditional decision: the
argument-hashing loop (so -L and -Wl,* are hashed), the precompiled-header
mtime rejection in verify_result, and the refusal of from_cache to serve
a cached precompiled header from the preprocessor-mode lookup. -/
theorem C10_unknown_treated_as_clang :
    (∀ p : Str,
        strstr_found (basename_of p) "clang".data = false →
        strstr_found (basename_of p) "gcc".data = false →
        strstr_found (basename_of p) "g++".data = false →
        strstr_found (basename_of p) "nvcc".data = false →
        basename_of p ≠ "pump".data →
        basename_of p ≠ "distcc-pump".data →
        guess_compiler p = guessed_compiler.unknown)
      ∧ (∀ (cfg : ArgHashCfg) (args : List Str),
          result_name_arg_events guessed_compiler.unknown cfg args
            = result_name_arg_events guessed_compiler.clang cfg args)
      ∧ (∀ (cfg : Config) (pch : Bool) (st : Bytes → Option file_stats)
            (hashf : Bytes → hash_res) (mf : Manifest) (r : ManifestResult),
          verify_result cfg guessed_compiler.unknown pch st hashf mf r
            = verify_result cfg guessed_compiler.clang pch st hashf mf r)
      ∧ (∀ (recache : Bool) (pch : Bool) (mode : fromcache_call_mode),
          from_cache_early_return recache guessed_compiler.unknown pch mode
            = from_cache_early_return recache guessed_compiler.clang pch mode) := by
  refine ⟨?_, ?_, ?_, ?_⟩
  · intro p h1 h2 h3 h4 h5 h6
    unfold guess_compiler
    simp [h1, h2, h3, h4, h5, h6]
  · intro cfg args
    rfl
  · intro cfg pch st hashf mf r
    rfl
  · intro recache pch mode
    rfl

/-- Concrete instance of C10: the compiler "cc" matches no pattern and is
classified GUESSED_UNKNOWN. -/
theorem C10_unknown_treated_as_clang_witness :
    guess_compiler "/usr/bin/cc".data = guessed_compiler.unknown :=
  C10_unknown_treated_as_clang.1 "/usr/bin/cc".data (by decide) (by decide)
    (by decide) (by decide) (by decide) (by decide)

/-! ### Claim C1 -/

/-- Claim C1: when manifest_get returns a result key, the winning
ResultEntry verified, which means every include file it references was
statted successfully, its current size equals the recorded fsize, and it
was accepted either by a full content-digest match (with no hash error
and no temporal macro found) or by a stat-only match available only when
the file_stat_matches sloppiness bit is set, comparing mtime alone when
the file_stat_matches_ctime bit is also set and mtime together with ctime
otherwise. -/
theorem C1_manifest_get_soundness (cfg : Config) (guessed : guessed_compiler)
    (output_is_pch : Bool) (st : Bytes → Option file_stats)
    (hashf : Bytes → hash_res) (mf : Manifest) (name : Bytes)
    (h : manifest_get cfg guessed output_is_pch st hashf mf = some name) :
    ∃ r ∈ mf.results, r.name = name
      ∧ verify_result cfg guessed output_is_pch st hashf mf r = true
      ∧ ∀ idx ∈ r.file_info_indexes, ∃ fi, mf.file_infos.get? idx = some fi
          ∧ ∃ path, mf.files.get? fi.index = some path
          ∧ ∃ fs, st path = some fs ∧ fi.fsize = fs.size
          ∧ (((hashf path).error = false ∧ (hashf path).found_time = false
                ∧ fi.digest = (hashf path).digest)
             ∨ (cfg.sloppy_file_stat_matches = true
                ∧ (if cfg.sloppy_file_stat_matches_ctime then
                    fi.mtime = fs.mtime
                  else fi.mtime = fs.mtime ∧ fi.ctime = fs.ctime))) := by
  unfold manifest_get at h
  rw [Option.map_eq_some'] at h
  obtain ⟨r, hfind, hname⟩ := h
  have hmem : r ∈ mf.results := by
    have := List.mem_of_find?_eq_some hfind
    exact List.mem_reverse.mp this
  have hver : verify_result cfg guessed output_is_pch st hashf mf r = true :=
    List.find?_some hfind
  refine ⟨r, hmem, hname, hver, ?_⟩
  intro idx hidx
  unfold verify_result at hver
  rw [List.all_eq_true] at hver
  have hd := hver idx hidx
  split at hd
  · exact absurd hd (by simp)
  case _ fi hfi =>
    split at hd
    · exact absurd hd (by simp)
    case _ path hpath =>
      refine ⟨fi, hfi, path, hpath, ?_⟩
      unfold verify_file at hd
      split at hd
      · exact absurd hd (by simp)
      case _ fs hst =>
        have hsz : fi.fsize = fs.size := by
          by_contra hne
          rw [if_pos hne] at hd
          exact absurd hd (by simp)
        refine ⟨fs, hst, hsz, ?_⟩
        rw [if_neg (fun hcon => hcon hsz)] at hd
        by_cases hpch : pch_mtime_reject guessed output_is_pch fi fs = true
        · rw [if_pos hpch] at hd
          exact absurd hd (by simp)
        · rw [if_neg hpch] at hd
          by_cases hacc : stat_only_accept cfg fi fs = true
          · right
            unfold stat_only_accept at hacc
            rw [Bool.and_eq_true] at hacc
            refine ⟨hacc.1, ?_⟩
            have h2 := hacc.2
            by_cases hbit : cfg.sloppy_file_stat_matches_ctime = true
            · rw [if_pos hbit]
              rw [hbit] at h2
              simp only [Bool.not_true] at h2
              rw [if_neg (show ¬ (false = true) by simp)] at h2
              simpa using h2
            · rw [Bool.not_eq_true] at hbit
              rw [if_neg (show ¬ (cfg.sloppy_file_stat_matches_ctime = true) by
                simp [hbit])]
              rw [hbit] at h2
              simp only [Bool.not_false] at h2
              rw [if_pos trivial] at h2
              rw [Bool.and_eq_true] at h2
              exact ⟨by simpa using h2.1, by simpa using h2.2⟩
          · left
            rw [if_neg hacc] at hd
            simp only at hd
            by_cases herr : (hashf path).error = true
            · rw [if_pos herr] at hd
              exact absurd hd (by simp)
            · rw [if_neg herr] at hd
              by_cases htime : (hashf path).found_time = true
              · rw [if_pos htime] at hd
                exact absurd hd (by simp)
              · rw [if_neg htime] at hd
                rw [Bool.not_eq_true] at herr htime
                exact ⟨herr, htime, by simpa using hd⟩

/-- Concrete instance of C1: a one-file manifest whose include file still
matches by content digest yields its stored result key, and the returned
entry satisfies the soundness property. -/
theorem C1_manifest_get_soundness_witness :
    manifest_get ⟨false, false, false, false, false, true, false⟩
          guessed_compiler.gcc false
          (fun p => if p = [97] then some ⟨3, 5, 6⟩ else none)
          (fun p => if p = [97] then ⟨false, false, [7]⟩ else ⟨true, false, []⟩)
          ⟨[[97]], [⟨0, [7], 3, 5, 6⟩], [⟨[0], [9]⟩]⟩
        = some [9]
      ∧ ∃ r ∈ (⟨[[97]], [⟨0, [7], 3, 5, 6⟩], [⟨[0], [9]⟩]⟩ : Manifest).results,
          r.name = [9]
          ∧ verify_result ⟨false, false, false, false, false, true, false⟩
              guessed_compiler.gcc false
              (fun p => if p = [97] then some ⟨3, 5, 6⟩ else none)
              (fun p => if p = [97] then ⟨false, false, [7]⟩ else ⟨true, false, []⟩)
              ⟨[[97]], [⟨0, [7], 3, 5, 6⟩], [⟨[0], [9]⟩]⟩ r = true
          ∧ ∀ idx ∈ r.file_info_indexes,
              ∃ fi, (⟨[[97]], [⟨0, [7], 3, 5, 6⟩], [⟨[0], [9]⟩]⟩ : Manifest).file_infos.get? idx
                  = some fi
                ∧ ∃ path, (⟨[[97]], [⟨0, [7], 3, 5, 6⟩], [⟨[0], [9]⟩]⟩ : Manifest).files.get? fi.index
                    = some path
                ∧ ∃ fs, (fun p => if p = [97] then some ⟨3, 5, 6⟩ else none : Bytes → Option file_stats) path
                    = some fs
                ∧ fi.fsize = fs.size
                ∧ ((((fun p => if p = [97] then ⟨false, false, [7]⟩ else ⟨true, false, []⟩ : Bytes → hash_res) path).error = false
                      ∧ ((fun p => if p = [97] then ⟨false, false, [7]⟩ else ⟨true, false, []⟩ : Bytes → hash_res) path).found_time = false
                      ∧ fi.digest = ((fun p => if p = [97] then ⟨false, false, [7]⟩ else ⟨true, false, []⟩ : Bytes → hash_res) path).digest)
                   ∨ ((⟨false, false, false, false, false, true, false⟩ : Config).sloppy_file_stat_matches = true
                      ∧ (if (⟨false, false, false, false, false, true, false⟩ : Config).sloppy_file_stat_matches_ctime then
                          fi.mtime = fs.mtime
                        else fi.mtime = fs.mtime ∧ fi.ctime = fs.ctime))) :=
  ⟨by decide,
    C1_manifest_get_soundness ⟨false, false, false, false, false, true, false⟩
      guessed_compiler.gcc false
      (fun p => if p = [97] then some ⟨3, 5, 6⟩ else none)
      (fun p => if p = [97] then ⟨false, false, [7]⟩ else ⟨true, false, []⟩)
      ⟨[[97]], [⟨0, [7], 3, 5, 6⟩], [⟨[0], [9]⟩]⟩ [9] (by decide)⟩

/-! ### Claim C9 -/

/-- Claim C9: when a referenced include file must be re-hashed (its size
matched and no stat-only sloppy match or pch rule settled it) and the
re-hash reports HASH_SOURCE_CODE_FOUND_TIME, verify_result rejects the
whole ResultEntry — the hypothesis says nothing about the digests, so the
rejection happens even when the recorded digest matches the current one —
and consequently manifest_get accepts nothing when every entry contains
such a file. -/
theorem C9_rehash_time_macro_rejects :
    (∀ (cfg : Config) (guessed : guessed_compiler) (output_is_pch : Bool)
        (st : Bytes → Option file_stats) (hashf : Bytes → hash_res)
        (mf : Manifest) (r : ManifestResult),
        rehash_hits_time_macro cfg guessed output_is_pch st hashf mf r →
        verify_result cfg guessed output_is_pch st hashf mf r = false)
      ∧ (∀ (cfg : Config) (guessed : guessed_compiler) (output_is_pch : Bool)
          (st : Bytes → Option file_stats) (hashf : Bytes → hash_res)
          (mf : Manifest),
          (∀ r ∈ mf.results,
            rehash_hits_time_macro cfg guessed output_is_pch st hashf mf r) →
          manifest_get cfg guessed output_is_pch st hashf mf = none) := by
  have hrej : ∀ (cfg : Config) (guessed : guessed_compiler) (output_is_pch : Bool)
      (st : Bytes → Option file_stats) (hashf : Bytes → hash_res)
      (mf : Manifest) (r : ManifestResult),
      rehash_hits_time_macro cfg guessed output_is_pch st hashf mf r →
      verify_result cfg guessed output_is_pch st hashf mf r = false := by
    intro cfg guessed output_is_pch st hashf mf r hr
    obtain ⟨idx, hidx, fi, hfi, path, hpath, fs, hst, hsz, hpch, hacc, herr, htime⟩ := hr
    rw [Bool.eq_false_iff]
    intro hall
    unfold verify_result at hall
    rw [List.all_eq_true] at hall
    have hd := hall idx hidx
    rw [hfi] at hd
    simp only at hd
    rw [hpath] at hd
    simp only at hd
    unfold verify_file at hd
    rw [hst] at hd
    simp only at hd
    rw [if_neg (fun hcon => hcon hsz)] at hd
    rw [if_neg (by rw [hpch]; simp)] at hd
    rw [if_neg (by rw [hacc]; simp)] at hd
    rw [if_neg (by rw [herr]; simp)] at hd
    rw [if_pos htime] at hd
    exact absurd hd (by simp)
  refine ⟨hrej, ?_⟩
  intro cfg guessed output_is_pch st hashf mf hall
  unfold manifest_get
  have hnone : mf.results.reverse.find?
      (verify_result cfg guessed output_is_pch st hashf mf) = none := by
    rw [List.find?_eq_none]
    intro r hr
    rw [List.mem_reverse] at hr
    rw [hrej cfg guessed output_is_pch st hashf mf r (hall r hr)]
    simp
  rw [hnone]
  rfl

/-- Concrete instance of C9: a file whose size still matches and whose
recorded digest equals its current digest is nevertheless rejected,
because re-hashing reports a temporal macro. -/
theorem C9_rehash_time_macro_rejects_witness :
    verify_result ⟨false, false, false, false, false, true, false⟩
        guessed_compiler.gcc false
        (fun p => if p = [97] then some ⟨3, 5, 6⟩ else none)
        (fun p => if p = [97] then ⟨false, true, [7]⟩ else ⟨true, false, []⟩)
        ⟨[[97]], [⟨0, [7], 3, 5, 6⟩], [⟨[0], [9]⟩]⟩ ⟨[0], [9]⟩
      = false :=
  C9_rehash_time_macro_rejects.1 ⟨false, false, false, false, false, true, false⟩
    guessed_compiler.gcc false
    (fun p => if p = [97] then some ⟨3, 5, 6⟩ else none)
    (fun p => if p = [97] then ⟨false, true, [7]⟩ else ⟨true, false, []⟩)
    ⟨[[97]], [⟨0, [7], 3, 5, 6⟩], [⟨[0], [9]⟩]⟩ ⟨[0], [9]⟩
    ⟨0, by decide, ⟨0, [7], 3, 5, 6⟩, by decide, [97], by decide,
      ⟨3, 5, 6⟩, by decide, by decide, by decide, by decide, by decide, by decide⟩

/-! ### Claim C8 -/

/-- Claim C8: inside remember_include_file every `goto failure` — stat
failing, a non-regular file, an mtime or ctime at or after
time_of_compilation without the corresponding sloppiness bit, a failed
content hash or one that found a temporal macro — leaves direct mode
disabled and records nothing, while every early `goto out` — angled
pseudo-paths, the input file itself, sloppy system headers, directories
and ignore-listed headers — records nothing and leaves direct mode
unchanged.  The first three conjuncts classify every exit; the rest map
each listed trigger to its exit. -/
theorem C8_failure_disables_direct_mode (cfg : Config) (input_file : Str)
    (ih : List Str) (toc : Int) (st : Str → Option inc_stat)
    (hok : Str → Bool) (fdg : Str → Bytes) (hsrc : Str → hash_res)
    (included : List (Str × Bytes)) (path : Str) (system : Bool) :
    ((remember_include_file cfg input_file ih toc st hok fdg hsrc included path
          system).cls = ri_class.failed →
        (remember_include_file cfg input_file ih toc st hok fdg hsrc included path
            system).direct_mode = false
          ∧ (remember_include_file cfg input_file ih toc st hok fdg hsrc included
              path system).included = included)
      ∧ ((remember_include_file cfg input_file ih toc st hok fdg hsrc included path
            system).cls = ri_class.ignored →
          (remember_include_file cfg input_file ih toc st hok fdg hsrc included path
              system).direct_mode = cfg.direct_mode
            ∧ (remember_include_file cfg input_file ih toc st hok fdg hsrc included
                path system).included = included)
      ∧ ((remember_include_file cfg input_file ih toc st hok fdg hsrc included path
            system).cls = ri_class.completed →
          (remember_include_file cfg input_file ih toc st hok fdg hsrc included path
              system).direct_mode = cfg.direct_mode)
      ∧ (2 ≤ path.length ∧ path.headD ' ' = '<' ∧ path.getLastD ' ' = '>' →
          (remember_include_file cfg input_file ih toc st hok fdg hsrc included path
              system).cls = ri_class.ignored)
      ∧ (¬ (2 ≤ path.length ∧ path.headD ' ' = '<' ∧ path.getLastD ' ' = '>') →
          path = input_file →
          (remember_include_file cfg input_file ih toc st hok fdg hsrc included path
              system).cls = ri_class.ignored)
      ∧ (¬ (2 ≤ path.length ∧ path.headD ' ' = '<' ∧ path.getLastD ' ' = '>') →
          path ≠ input_file → system = true → cfg.sloppy_system_headers = true →
          (remember_include_file cfg input_file ih toc st hok fdg hsrc included path
              system).cls = ri_class.ignored)
      ∧ (∀ (hpre : ¬ (2 ≤ path.length ∧ path.headD ' ' = '<'
              ∧ path.getLastD ' ' = '>')
            ∧ path ≠ input_file
            ∧ ¬ (system = true ∧ cfg.sloppy_system_headers = true)
            ∧ (included.find? (fun e => e.1 = path)).isSome = false),
          (st path = none →
            (remember_include_file cfg input_file ih toc st hok fdg hsrc included
                path system).cls = ri_class.failed)
          ∧ (∀ s, st path = some s →
              (s.is_dir = true →
                (remember_include_file cfg input_file ih toc st hok fdg hsrc
                    included path system).cls = ri_class.ignored)
              ∧ (s.is_dir = false → s.is_reg = false →
                (remember_include_file cfg input_file ih toc st hok fdg hsrc
                    included path system).cls = ri_class.failed)
              ∧ (∀ (hreg : s.is_dir = false ∧ s.is_reg = true),
                  (ih.any (ignore_hit
                        (if path.take 2 = "./".data then path.drop 2 else path))
                      = true →
                    (remember_include_file cfg input_file ih toc st hok fdg hsrc
                        included path system).cls = ri_class.ignored)
                  ∧ (∀ (hign : ih.any (ignore_hit
                        (if path.take 2 = "./".data then path.drop 2 else path))
                      = false),
                      (cfg.sloppy_include_file_mtime = false ∧ s.mtime ≥ toc →
                        (remember_include_file cfg input_file ih toc st hok fdg
                            hsrc included path system).cls = ri_class.failed)
                      ∧ (∀ (hmt : ¬ (cfg.sloppy_include_file_mtime = false
                            ∧ s.mtime ≥ toc)),
                          (cfg.sloppy_include_file_ctime = false ∧ s.ctime ≥ toc →
                            (remember_include_file cfg input_file ih toc st hok
                                fdg hsrc included path
                                system).cls = ri_class.failed)
                          ∧ (∀ (hct : ¬ (cfg.sloppy_include_file_ctime = false
                                ∧ s.ctime ≥ toc)),
                              (is_precompiled_header path = true →
                                hok (if cfg.pch_external_checksum = true
                                      ∧ (st (path ++ ".sum".data)).isSome = true
                                    then path ++ ".sum".data else path) = false →
                                (remember_include_file cfg input_file ih toc st
                                    hok fdg hsrc included path
                                    system).cls = ri_class.failed)
                              ∧ (is_precompiled_header path = false →
                                cfg.direct_mode = true →
                                (hsrc path).error = true
                                  ∨ (hsrc path).found_time = true →
                                (remember_include_file cfg input_file ih toc st
                                    hok fdg hsrc included path
                                    system).cls = ri_class.failed))))))) := by
  have classify :
      remember_include_file cfg input_file ih toc st hok fdg hsrc included path
          system = ⟨included, cfg.direct_mode, ri_class.ignored⟩
        ∨ remember_include_file cfg input_file ih toc st hok fdg hsrc included
            path system = ⟨included, false, ri_class.failed⟩
        ∨ ∃ inc, remember_include_file cfg input_file ih toc st hok fdg hsrc
            included path system = ⟨inc, cfg.direct_mode, ri_class.completed⟩ := by
    by_cases h1 : 2 ≤ path.length ∧ path.headD ' ' = '<' ∧ path.getLastD ' ' = '>'
    · refine Or.inl ?_
      simp only [remember_include_file]
      rw [if_pos h1]
    by_cases h2 : path = input_file
    · refine Or.inl ?_
      simp only [remember_include_file]
      rw [if_neg h1, if_pos h2]
    by_cases h3 : system = true ∧ cfg.sloppy_system_headers = true
    · refine Or.inl ?_
      simp only [remember_include_file]
      rw [if_neg h1, if_neg h2, if_pos h3]
    by_cases h4 : (included.find? (fun e => e.1 = path)).isSome = true
    · refine Or.inl ?_
      simp only [remember_include_file]
      rw [if_neg h1, if_neg h2, if_neg h3, if_pos h4]
    rcases hst : st path with _ | s
    · refine Or.inr (Or.inl ?_)
      simp only [remember_include_file]
      rw [if_neg h1, if_neg h2, if_neg h3, if_neg h4]
      simp only [hst]
    by_cases h5 : s.is_dir = true
    · refine Or.inl ?_
      simp only [remember_include_file]
      rw [if_neg h1, if_neg h2, if_neg h3, if_neg h4]
      simp only [hst]
      rw [if_pos h5]
    by_cases h6 : s.is_reg = false
    · refine Or.inr (Or.inl ?_)
      simp only [remember_include_file]
      rw [if_neg h1, if_neg h2, if_neg h3, if_neg h4]
      simp only [hst]
      rw [if_neg h5, if_pos h6]
    by_cases h7 : ih.any (ignore_hit
        (if path.take 2 = "./".data then path.drop 2 else path)) = true
    · refine Or.inl ?_
      simp only [remember_include_file]
      rw [if_neg h1, if_neg h2, if_neg h3, if_neg h4]
      simp only [hst]
      rw [if_neg h5, if_neg h6, if_pos h7]
    by_cases h8 : cfg.sloppy_include_file_mtime = false ∧ s.mtime ≥ toc
    · refine Or.inr (Or.inl ?_)
      simp only [remember_include_file]
      rw [if_neg h1, if_neg h2, if_neg h3, if_neg h4]
      simp only [hst]
      rw [if_neg h5, if_neg h6, if_neg h7, if_pos h8]
    by_cases h9 : cfg.sloppy_include_file_ctime = false ∧ s.ctime ≥ toc
    · refine Or.inr (Or.inl ?_)
      simp only [remember_include_file]
      rw [if_neg h1, if_neg h2, if_neg h3, if_neg h4]
      simp only [hst]
      rw [if_neg h5, if_neg h6, if_neg h7, if_neg h8, if_pos h9]
    by_cases h10 : is_precompiled_header path = true
    · by_cases h11 : hok (if cfg.pch_external_checksum = true
          ∧ (st (path ++ ".sum".data)).isSome = true
          then path ++ ".sum".data else path) = false
      · refine Or.inr (Or.inl ?_)
        simp only [remember_include_file]
        rw [if_neg h1, if_neg h2, if_neg h3, if_neg h4]
        simp only [hst]
        rw [if_neg h5, if_neg h6, if_neg h7, if_neg h8, if_neg h9, if_pos h10,
          if_pos h11]
      · by_cases h12 : cfg.direct_mode = true
        · refine Or.inr (Or.inr ⟨included
            ++ [((if cfg.pch_external_checksum = true
                    ∧ (st (path ++ ".sum".data)).isSome = true
                  then path ++ ".sum".data else path),
                fdg (if cfg.pch_external_checksum = true
                    ∧ (st (path ++ ".sum".data)).isSome = true
                  then path ++ ".sum".data else path))], ?_⟩)
          simp only [remember_include_file]
          rw [if_neg h1, if_neg h2, if_neg h3, if_neg h4]
          simp only [hst]
          rw [if_neg h5, if_neg h6, if_neg h7, if_neg h8, if_neg h9, if_pos h10,
            if_neg h11, if_pos h12]
        · refine Or.inr (Or.inr ⟨included, ?_⟩)
          simp only [remember_include_file]
          rw [if_neg h1, if_neg h2, if_neg h3, if_neg h4]
          simp only [hst]
          rw [if_neg h5, if_neg h6, if_neg h7, if_neg h8, if_neg h9, if_pos h10,
            if_neg h11, if_neg h12]
    · by_cases h12 : cfg.direct_mode = true
      · by_cases h13 : (hsrc path).error = true ∨ (hsrc path).found_time = true
        · refine Or.inr (Or.inl ?_)
          simp only [remember_include_file]
          rw [if_neg h1, if_neg h2, if_neg h3, if_neg h4]
          simp only [hst]
          rw [if_neg h5, if_neg h6, if_neg h7, if_neg h8, if_neg h9, if_neg h10,
            if_pos h12, if_pos h13]
        · refine Or.inr (Or.inr ⟨included ++ [(path, (hsrc path).digest)], ?_⟩)
          simp only [remember_include_file]
          rw [if_neg h1, if_neg h2, if_neg h3, if_neg h4]
          simp only [hst]
          rw [if_neg h5, if_neg h6, if_neg h7, if_neg h8, if_neg h9, if_neg h10,
            if_pos h12, if_neg h13]
      · refine Or.inr (Or.inr ⟨included, ?_⟩)
        simp only [remember_include_file]
        rw [if_neg h1, if_neg h2, if_neg h3, if_neg h4]
        simp only [hst]
        rw [if_neg h5, if_neg h6, if_neg h7, if_neg h8, if_neg h9, if_neg h10,
          if_neg h12]
  refine ⟨?_, ?_, ?_, ?_, ?_, ?_, ?_⟩
  · rcases classify with h | h | ⟨inc, h⟩ <;> rw [h] <;> intro hcls
    · simp at hcls
    · exact ⟨rfl, rfl⟩
    · simp at hcls
  · rcases classify with h | h | ⟨inc, h⟩ <;> rw [h] <;> intro hcls
    · exact ⟨rfl, rfl⟩
    · simp at hcls
    · simp at hcls
  · rcases classify with h | h | ⟨inc, h⟩ <;> rw [h] <;> intro hcls
    · simp at hcls
    · simp at hcls
    · exact rfl
  · intro h1
    simp only [remember_include_file]
    rw [if_pos h1]
  · intro h1 h2
    simp only [remember_include_file]
    rw [if_neg h1, if_pos h2]
  · intro h1 h2 h3 h4
    simp only [remember_include_file]
    rw [if_neg h1, if_neg h2, if_pos ⟨h3, h4⟩]
  · intro hpre
    obtain ⟨h1, h2, h3, h4⟩ := hpre
    have h4' : ¬ ((included.find? (fun e => e.1 = path)).isSome = true) := by
      simp [h4]
    refine ⟨?_, ?_⟩
    · intro hst
      simp only [remember_include_file]
      rw [if_neg h1, if_neg h2, if_neg h3, if_neg h4']
      simp only [hst]
    · intro s hst
      refine ⟨?_, ?_, ?_⟩
      · intro hdir
        simp only [remember_include_file]
        rw [if_neg h1, if_neg h2, if_neg h3, if_neg h4']
        simp only [hst]
        rw [if_pos hdir]
      · intro hdir hregf
        simp only [remember_include_file]
        rw [if_neg h1, if_neg h2, if_neg h3, if_neg h4']
        simp only [hst]
        rw [if_neg (by simp [hdir]), if_pos hregf]
      · intro hreg
        refine ⟨?_, ?_⟩
        · intro hhit
          simp only [remember_include_file]
          rw [if_neg h1, if_neg h2, if_neg h3, if_neg h4']
          simp only [hst]
          rw [if_neg (by simp [hreg.1]), if_neg (by simp [hreg.2]), if_pos hhit]
        · intro hign
          have hign' : ¬ (ih.any (ignore_hit
              (if path.take 2 = "./".data then path.drop 2 else path)) = true) := by
            simp [hign]
          refine ⟨?_, ?_⟩
          · intro hmt
            simp only [remember_include_file]
            rw [if_neg h1, if_neg h2, if_neg h3, if_neg h4']
            simp only [hst]
            rw [if_neg (by simp [hreg.1]), if_neg (by simp [hreg.2]),
              if_neg hign', if_pos hmt]
          · intro hmt
            refine ⟨?_, ?_⟩
            · intro hct
              simp only [remember_include_file]
              rw [if_neg h1, if_neg h2, if_neg h3, if_neg h4']
              simp only [hst]
              rw [if_neg (by simp [hreg.1]), if_neg (by simp [hreg.2]),
                if_neg hign', if_neg hmt, if_pos hct]
            · intro hct
              refine ⟨?_, ?_⟩
              · intro hpch hhf
                simp only [remember_include_file]
                rw [if_neg h1, if_neg h2, if_neg h3, if_neg h4']
                simp only [hst]
                rw [if_neg (by simp [hreg.1]), if_neg (by simp [hreg.2]),
                  if_neg hign', if_neg hmt, if_neg hct, if_pos hpch, if_pos hhf]
              · intro hpch hdm herr
                simp only [remember_include_file]
                rw [if_neg h1, if_neg h2, if_neg h3, if_neg h4']
                simp only [hst]
                rw [if_neg (by simp [hreg.1]), if_neg (by simp [hreg.2]),
                  if_neg hign', if_neg hmt, if_neg hct, if_neg (by simp [hpch]),
                  if_pos hdm, if_pos herr]

/-- Concrete instance of C8: an include file whose stat fails turns
direct mode off and records nothing. -/
theorem C8_failure_disables_direct_mode_witness :
    (remember_include_file ⟨false, false, false, false, false, true, false⟩
        "a.c".data [] 100 (fun _ => none) (fun _ => true) (fun _ => [])
        (fun _ => ⟨false, false, []⟩) [] "h.h".data false).direct_mode = false
      ∧ (remember_include_file ⟨false, false, false, false, false, true, false⟩
          "a.c".data [] 100 (fun _ => none) (fun _ => true) (fun _ => [])
          (fun _ => ⟨false, false, []⟩) [] "h.h".data false).included = [] :=
  (C8_failure_disables_direct_mode ⟨false, false, false, false, false, true, false⟩
      "a.c".data [] 100 (fun _ => none) (fun _ => true) (fun _ => [])
      (fun _ => ⟨false, false, []⟩) [] "h.h".data false).1
    (((C8_failure_disables_direct_mode
        ⟨false, false, false, false, false, true, false⟩
        "a.c".data [] 100 (fun _ => none) (fun _ => true) (fun _ => [])
        (fun _ => ⟨false, false, []⟩) [] "h.h".data false).2.2.2.2.2.2
      ⟨by decide, by decide, by decide, by decide⟩).1 rfl)

/-! ### Helper lemmas for the manifest codec roundtrip -/

theorem beBytes_length (w n : Nat) : (beBytes w n).length = w := by
  induction w generalizing n with
  | zero => rfl
  | succ w ih => simp [beBytes, ih]

theorem bytes_to_nat_beBytes (w n : Nat) :
    bytes_to_nat (beBytes w n) = n % 256 ^ w := by
  induction w generalizing n with
  | zero => simp [beBytes, bytes_to_nat]; omega
  | succ w ih =>
    unfold beBytes bytes_to_nat
    rw [List.foldl_append]
    have hrec := ih (n / 256)
    unfold bytes_to_nat at hrec
    rw [hrec]
    simp only [List.foldl_cons, List.foldl_nil]
    rw [pow_succ, mul_comm (256 ^ w) 256, Nat.mod_mul]
    ring

theorem read_bytes_append (xs r : Bytes) :
    read_bytes xs.length (xs ++ r) = some (xs, r) := by
  unfold read_bytes
  rw [if_pos (by simp)]
  rw [List.take_left, List.drop_left]

theorem read_bytes_append' (n : Nat) (xs r : Bytes) (h : xs.length = n) :
    read_bytes n (xs ++ r) = some (xs, r) := by
  subst h
  exact read_bytes_append xs r

theorem read_u16_append (n : Nat) (hn : n < 2 ^ 16) (r : Bytes) :
    read_u16 (u16_bytes n ++ r) = some (n, r) := by
  unfold read_u16 u16_bytes
  rw [read_bytes_append' 2 (beBytes 2 n) r (beBytes_length 2 n)]
  simp only [Option.map_some', bytes_to_nat_beBytes]
  rw [Nat.mod_eq_of_lt (by omega)]

theorem read_u32_append (n : Nat) (hn : n < 2 ^ 32) (r : Bytes) :
    read_u32 (u32_bytes n ++ r) = some (n, r) := by
  unfold read_u32 u32_bytes
  rw [read_bytes_append' 4 (beBytes 4 n) r (beBytes_length 4 n)]
  simp only [Option.map_some', bytes_to_nat_beBytes]
  rw [Nat.mod_eq_of_lt (by omega)]

theorem read_u64_append (n : Nat) (hn : n < 2 ^ 64) (r : Bytes) :
    read_u64 (u64_bytes n ++ r) = some (n, r) := by
  unfold read_u64 u64_bytes
  rw [read_bytes_append' 8 (beBytes 8 n) r (beBytes_length 8 n)]
  simp only [Option.map_some', bytes_to_nat_beBytes]
  rw [Nat.mod_eq_of_lt (by omega)]

theorem read_i64_append (m : Int) (h1 : -2 ^ 63 ≤ m) (h2 : m < 2 ^ 63)
    (r : Bytes) :
    read_i64 (i64_bytes m ++ r) = some (m, r) := by
  have hk0 : 0 ≤ m % 2 ^ 64 := Int.emod_nonneg m (by norm_num)
  have hklt : m % 2 ^ 64 < 2 ^ 64 := Int.emod_lt_of_pos m (by norm_num)
  have htn : (((m % 2 ^ 64).toNat : Int)) = m % 2 ^ 64 := Int.toNat_of_nonneg hk0
  unfold read_i64 i64_bytes
  rw [read_u64_append _ (by omega) r]
  simp only [Option.map_some']
  congr 1
  congr 1
  split <;> omega

theorem read_list_append {α : Type} (rd : Bytes → Option (α × Bytes))
    (wr : α → Bytes) (xs : List α)
    (hx : ∀ x ∈ xs, ∀ r, rd (wr x ++ r) = some (x, r)) (r : Bytes) :
    read_list xs.length rd ((xs.map wr).flatten ++ r) = some (xs, r) := by
  induction xs with
  | nil => simp [read_list]
  | cons x tl ih =>
    simp only [List.map_cons, List.flatten_cons, List.length_cons, read_list,
     List.append_assoc]
    rw [hx x (by simp) ((tl.map wr).flatten ++ r)]
    dsimp only
    rw [ih (fun y hy => hx y (by simp [hy]))]

theorem read_file_entry_append (p : Bytes) (hp : p.length < 2 ^ 16) (r : Bytes) :
    read_file_entry (write_file_entry p ++ r) = some (p, r) := by
  unfold read_file_entry write_file_entry
  rw [List.append_assoc, read_u16_append p.length hp (p ++ r)]
  simp only
  rw [read_bytes_append]

theorem read_file_info_append (fi : FileInfo) (h1 : fi.index < 2 ^ 32)
    (h2 : fi.digest.length = DIGEST_SIZE) (h3 : fi.fsize < 2 ^ 64)
    (h4 : -2 ^ 63 ≤ fi.mtime) (h5 : fi.mtime < 2 ^ 63)
    (h6 : -2 ^ 63 ≤ fi.ctime) (h7 : fi.ctime < 2 ^ 63) (r : Bytes) :
    read_file_info (write_file_info fi ++ r) = some (fi, r) := by
  unfold read_file_info write_file_info
  simp only [List.append_assoc]
  rw [read_u32_append fi.index h1]
  simp only
  rw [← h2, read_bytes_append]
  simp only
  rw [read_u64_append fi.fsize h3]
  simp only
  rw [read_i64_append fi.mtime h4 h5]
  simp only
  rw [read_i64_append fi.ctime h6 h7]

theorem read_result_append (res : ManifestResult)
    (h1 : res.file_info_indexes.length < 2 ^ 32)
    (h2 : ∀ i ∈ res.file_info_indexes, i < 2 ^ 32)
    (h3 : res.name.length = DIGEST_SIZE) (r : Bytes) :
    read_result (write_result res ++ r) = some (res, r) := by
  unfold read_result write_result
  simp only [List.append_assoc]
  rw [read_u32_append res.file_info_indexes.length h1]
  simp only
  rw [read_list_append read_u32 u32_bytes res.file_info_indexes
    (fun i hi r' => read_u32_append i (h2 i hi) r')]
  simp only
  rw [← h3, read_bytes_append]

theorem read_body_append (mf : Manifest) (hwf : manifest_wf mf) (r : Bytes) :
    read_body (write_body mf ++ r) = some (mf, r) := by
  obtain ⟨w1, w2, w3, w4, w5, w6⟩ := hwf
  unfold read_body write_body
  simp only [List.append_assoc]
  rw [read_u32_append mf.files.length w1]
  simp only
  rw [read_list_append read_file_entry write_file_entry mf.files
    (fun p hp r' => read_file_entry_append p (w2 p hp) r')]
  simp only
  rw [read_u32_append mf.file_infos.length w3]
  simp only
  rw [read_list_append read_file_info write_file_info mf.file_infos
    (fun fi hfi r' => by
      obtain ⟨a1, a2, a3, a4, a5, a6, a7⟩ := w4 fi hfi
      exact read_file_info_append fi a1 a2 a3 a4 a5 a6 a7 r')]
  simp only
  rw [read_u32_append mf.results.length w5]
  simp only
  rw [read_list_append read_result write_result mf.results
    (fun res hres r' => by
      obtain ⟨a1, a2, a3⟩ := w6 res hres
      exact read_result_append res a1 a2 a3 r')]

theorem read_common_header_append (c : Nat) (r : Bytes) :
    read_common_header (write_common_header c ++ r) = some r := by
  unfold read_common_header write_common_header
  simp only [List.append_assoc]
  rw [show (4 : Nat) = MANIFEST_MAGIC.length from rfl, read_bytes_append]
  simp only [MANIFEST_VERSION]
  rw [if_neg (by simp)]
  simp only [List.cons_append, List.nil_append]
  rw [if_neg (by norm_num), if_neg (by norm_num)]
  unfold read_u64
  rw [read_bytes_append' 8 (u64_bytes c) r (beBytes_length 8 c)]
  simp

/-! ### Claim C6 -/

/-- Claim C6: serializing any representable manifest with write_manifest
and parsing the bytes back with read_manifest succeeds and returns exactly
the same files, file_infos and results tables (so in particular the same
logical content modulo reordering), for every checksum function producing
uint64 values. -/
theorem C6_manifest_roundtrip (xxh : Bytes → Nat) (hxxh : ∀ b, xxh b < 2 ^ 64)
    (mf : Manifest) (hwf : manifest_wf mf) :
    read_manifest xxh (write_manifest xxh mf) = some mf := by
  unfold read_manifest write_manifest
  rw [List.append_assoc, read_common_header_append]
  simp only
  rw [read_body_append mf hwf]
  simp only
  have hu64 : read_u64 (u64_bytes (xxh (write_body mf)))
      = some (xxh (write_body mf), []) := by
    have h := read_u64_append (xxh (write_body mf)) (hxxh (write_body mf)) []
    rwa [List.append_nil] at h
  rw [hu64]
  simp only
  have htake : (write_body mf ++ u64_bytes (xxh (write_body mf))).take
      ((write_body mf ++ u64_bytes (xxh (write_body mf))).length
        - (u64_bytes (xxh (write_body mf))).length) = write_body mf := by
    rw [List.length_append, Nat.add_sub_cancel, List.take_left]
  rw [htake, if_pos rfl]

/-- Concrete instance of C6: a one-entry manifest roundtrips. -/
theorem C6_manifest_roundtrip_witness :
    read_manifest (fun _ => 0)
        (write_manifest (fun _ => 0)
          ⟨[[97]], [⟨0, List.replicate 20 7, 3, 5, 6⟩],
            [⟨[0], List.replicate 20 9⟩]⟩)
      = some ⟨[[97]], [⟨0, List.replicate 20 7, 3, 5, 6⟩],
          [⟨[0], List.replicate 20 9⟩]⟩ :=
  C6_manifest_roundtrip (fun _ => 0) (fun _ => by norm_num)
    ⟨[[97]], [⟨0, List.replicate 20 7, 3, 5, 6⟩], [⟨[0], List.replicate 20 9⟩]⟩
    (by decide)

/-! ### Helper lemmas for the argument-hashing loop -/

theorem consumes_cleanly_nil (cfg : ArgHashCfg) (b : Bool) :
    consumes_cleanly cfg b [] := by
  intro rest
  simp [hash_arg_list]

theorem hash_arg_list_L_sep (cfg : ArgHashCfg) (d : Str) (post : List Str) :
    hash_arg_list cfg false ("-L".data :: d :: post)
      = hash_arg_list cfg false post := by
  simp [hash_arg_list]

theorem hash_arg_list_L_att (cfg : ArgHashCfg) (d : Str) (post : List Str)
    (hd : d ≠ []) :
    hash_arg_list cfg false (("-L".data ++ d) :: post)
      = hash_arg_list cfg false post := by
  rw [hash_arg_list.eq_def]
  simp [str_startswith, List.isPrefixOf, hd]

theorem hash_arg_list_Wl (cfg : ArgHashCfg) (d : Str) (post : List Str) :
    hash_arg_list cfg false (("-Wl,".data ++ d) :: post)
      = hash_arg_list cfg false post := by
  rw [hash_arg_list.eq_def]
  simp [str_startswith, List.isPrefixOf]

theorem hash_arg_list_debug_map (cfg : ArgHashCfg) (is_clang : Bool) (v : Str)
    (post : List Str) :
    hash_arg_list cfg is_clang (("-fdebug-prefix-map=".data ++ v) :: post)
      = (hash_ev.delim "arg".data :: hash_ev.str "-fdebug-prefix-map=".data
          :: (hash_arg_list cfg is_clang post).1,
        (hash_arg_list cfg is_clang post).2) := by
  rw [hash_arg_list.eq_def]
  cases is_clang <;> simp [str_startswith, List.isPrefixOf]

theorem hash_arg_list_MF_sep (cfg : ArgHashCfg) (d : Str) (post : List Str)
    (hgen : cfg.generating_dependencies = true)
    (hMF : cfg.affects_cpp "-MF".data = false)
    (hM : cfg.affects_cpp "-M".data = false)
    (hod : cfg.output_dep ≠ "/dev/null".data) :
    hash_arg_list cfg false ("-MF".data :: d :: post)
      = (hash_ev.delim "arg".data :: hash_ev.str "-MF".data
          :: (hash_arg_list cfg false post).1, (hash_arg_list cfg false post).2) := by
  rw [hash_arg_list.eq_def]
  simp [str_startswith, List.isPrefixOf, specs_arg, hgen, hMF, hM, hod]

theorem hash_arg_list_MF_att (cfg : ArgHashCfg) (d : Str) (post : List Str)
    (hd : d ≠ [])
    (hgen : cfg.generating_dependencies = true)
    (haff : cfg.affects_cpp ("-MF".data ++ d) = false)
    (hM : cfg.affects_cpp "-M".data = false) :
    hash_arg_list cfg false (("-MF".data ++ d) :: post)
      = (hash_ev.delim "arg".data :: hash_ev.str "-MF".data
          :: (hash_arg_list cfg false post).1, (hash_arg_list cfg false post).2) := by
  have haff' : cfg.affects_cpp ('-' :: 'M' :: 'F' :: d) = false := by
    simpa using haff
  rw [hash_arg_list.eq_def]
  simp [str_startswith, List.isPrefixOf, specs_arg, hgen, haff', hM, hd]

theorem hash_arg_list_WpMD (cfg : ArgHashCfg) (d : Str) (post : List Str)
    (hgen : cfg.generating_dependencies = true)
    (hcomma : d.contains ',' = false)
    (haff : cfg.affects_cpp ("-Wp,-MD,".data ++ d) = false)
    (hW : cfg.affects_cpp "-W".data = false) :
    hash_arg_list cfg false (("-Wp,-MD,".data ++ d) :: post)
      = (hash_ev.str "-Wp,-MD,".data :: (hash_arg_list cfg false post).1,
          (hash_arg_list cfg false post).2) := by
  have haff' : cfg.affects_cpp
      ('-' :: 'W' :: 'p' :: ',' :: '-' :: 'M' :: 'D' :: ',' :: d) = false := by
    simpa using haff
  have hc' : ¬ (',' ∈ d) := by simpa using hcomma
  rw [hash_arg_list.eq_def]
  simp [str_startswith, List.isPrefixOf, specs_arg, hgen, hc', haff', hW]

theorem hash_arg_list_WpMMD (cfg : ArgHashCfg) (d : Str) (post : List Str)
    (hgen : cfg.generating_dependencies = true)
    (hcomma : d.contains ',' = false)
    (haff : cfg.affects_cpp ("-Wp,-MMD,".data ++ d) = false)
    (hW : cfg.affects_cpp "-W".data = false) :
    hash_arg_list cfg false (("-Wp,-MMD,".data ++ d) :: post)
      = (hash_ev.str "-Wp,-MMD,".data :: (hash_arg_list cfg false post).1,
          (hash_arg_list cfg false post).2) := by
  have haff' : cfg.affects_cpp
      ('-' :: 'W' :: 'p' :: ',' :: '-' :: 'M' :: 'M' :: 'D' :: ',' :: d) = false := by
    simpa using haff
  have hc' : ¬ (',' ∈ d) := by simpa using hcomma
  rw [hash_arg_list.eq_def]
  simp [str_startswith, List.isPrefixOf, specs_arg, hgen, hc', haff', hW]

/-! ### Claim C5 -/

/-- Claim C5 as stated is false on two counts.  First, two gcc
invocations generating dependencies that differ only in the dependency
output filename — one uses -MF /dev/null, the other -MF x.d — hash
differently, because calculate_result_name deliberately distinguishes a
/dev/null dependency file (the argument is not skipped and an extra
delimiter is mixed in).  Second, the -fdebug-prefix-map value reaches
the key outside the argument loop: with debug info and hash_dir active,
hash_common_info hashes the CWD after rewriting it through the map, so
values /build=/x and /build=/y hash a CWD under /build differently. -/
theorem C5_irrelevant_args_counterexample :
    (result_name_arg_events guessed_compiler.gcc
        ⟨false, false, false, true, "/dev/null".data, fun _ => false,
          fun _ => false, fun _ => false⟩
        ["-c".data, "-MF".data, "/dev/null".data]
      ≠ result_name_arg_events guessed_compiler.gcc
        ⟨false, false, false, true, "x.d".data, fun _ => false,
          fun _ => false, fun _ => false⟩
        ["-c".data, "-MF".data, "x.d".data])
    ∧ hash_cwd_events true true "/build/sub".data ["/build=/x".data]
      ≠ hash_cwd_events true true "/build/sub".data ["/build=/y".data] := by
  constructor
  · simp [result_name_arg_events, hash_arg_list, str_startswith,
      List.isPrefixOf, specs_arg, isClangLike]
  · decide

/-- Claim C5, amended: for a non-clang compiler, invocations that differ
only in a -L directory (separate or attached, the attached value being
nonempty), only in a -Wl,* argument, only in the value of a
-fdebug-prefix-map= option, or — while generating dependencies — only in
the dependency output filename given by -MF (separate or attached) or by
the -Wp, forms of -MD and -MMD, hash to the same result key, provided no
dependency file involved is named /dev/null (the code hashes that case
distinctly) and the -Wp, filenames contain no comma (otherwise the whole
option is hashed verbatim).  For the -fdebug-prefix-map case the value
also reaches the key through the CWD hashing of hash_common_info, so the
keys agree only when the CWD is not hashed (no debug info generated, or
hash_dir disabled) or when both map lists rewrite the CWD to the same
string; the fifth and sixth conjuncts cover that step.  The prefix before
the differing token must be consumed cleanly, the compopt table (external
to the sources) is assumed not to classify the dependency options as
preprocessor-only, and for the dependency cases the remaining arguments
must hash alike under both derived output_dep values. -/
theorem C5_irrelevant_args_amended (guessed : guessed_compiler)
    (hclang : isClangLike guessed = false) :
    (∀ (cfg : ArgHashCfg) (pre post : List Str) (d1 d2 : Str),
        consumes_cleanly cfg false pre →
        result_name_arg_events guessed cfg (pre ++ "-L".data :: d1 :: post)
          = result_name_arg_events guessed cfg (pre ++ "-L".data :: d2 :: post))
    ∧ (∀ (cfg : ArgHashCfg) (pre post : List Str) (d1 d2 : Str),
        d1 ≠ [] → d2 ≠ [] →
        consumes_cleanly cfg false pre →
        result_name_arg_events guessed cfg (pre ++ ("-L".data ++ d1) :: post)
          = result_name_arg_events guessed cfg (pre ++ ("-L".data ++ d2) :: post))
    ∧ (∀ (cfg : ArgHashCfg) (pre post : List Str) (s1 s2 : Str),
        consumes_cleanly cfg false pre →
        result_name_arg_events guessed cfg (pre ++ ("-Wl,".data ++ s1) :: post)
          = result_name_arg_events guessed cfg (pre ++ ("-Wl,".data ++ s2) :: post))
    ∧ (∀ (cfg : ArgHashCfg) (pre post : List Str) (v1 v2 : Str),
        consumes_cleanly cfg false pre →
        result_name_arg_events guessed cfg
            (pre ++ ("-fdebug-prefix-map=".data ++ v1) :: post)
          = result_name_arg_events guessed cfg
            (pre ++ ("-fdebug-prefix-map=".data ++ v2) :: post))
    ∧ (∀ (gd hd : Bool) (cwd : Str) (maps1 maps2 : List Str),
        gd = false ∨ hd = false →
        hash_cwd_events gd hd cwd maps1 = hash_cwd_events gd hd cwd maps2)
    ∧ (∀ (gd hd : Bool) (cwd : Str) (maps1 maps2 : List Str),
        maps1.foldl apply_debug_prefix_map cwd
          = maps2.foldl apply_debug_prefix_map cwd →
        hash_cwd_events gd hd cwd maps1 = hash_cwd_events gd hd cwd maps2)
    ∧ (∀ (cfg : ArgHashCfg) (od1 od2 : Str) (pre post : List Str) (d1 d2 : Str),
        cfg.generating_dependencies = true →
        cfg.affects_cpp "-MF".data = false →
        cfg.affects_cpp "-M".data = false →
        od1 ≠ "/dev/null".data → od2 ≠ "/dev/null".data →
        consumes_cleanly { cfg with output_dep := od1 } false pre →
        consumes_cleanly { cfg with output_dep := od2 } false pre →
        hash_arg_list { cfg with output_dep := od1 } false pre
          = hash_arg_list { cfg with output_dep := od2 } false pre →
        hash_arg_list { cfg with output_dep := od1 } false post
          = hash_arg_list { cfg with output_dep := od2 } false post →
        result_name_arg_events guessed { cfg with output_dep := od1 }
            (pre ++ "-MF".data :: d1 :: post)
          = result_name_arg_events guessed { cfg with output_dep := od2 }
            (pre ++ "-MF".data :: d2 :: post))
    ∧ (∀ (cfg : ArgHashCfg) (od1 od2 : Str) (pre post : List Str) (d1 d2 : Str),
        d1 ≠ [] → d2 ≠ [] →
        cfg.generating_dependencies = true →
        cfg.affects_cpp ("-MF".data ++ d1) = false →
        cfg.affects_cpp ("-MF".data ++ d2) = false →
        cfg.affects_cpp "-M".data = false →
        od1 ≠ "/dev/null".data → od2 ≠ "/dev/null".data →
        consumes_cleanly { cfg with output_dep := od1 } false pre →
        consumes_cleanly { cfg with output_dep := od2 } false pre →
        hash_arg_list { cfg with output_dep := od1 } false pre
          = hash_arg_list { cfg with output_dep := od2 } false pre →
        hash_arg_list { cfg with output_dep := od1 } false post
          = hash_arg_list { cfg with output_dep := od2 } false post →
        result_name_arg_events guessed { cfg with output_dep := od1 }
            (pre ++ ("-MF".data ++ d1) :: post)
          = result_name_arg_events guessed { cfg with output_dep := od2 }
            (pre ++ ("-MF".data ++ d2) :: post))
    ∧ (∀ (cfg : ArgHashCfg) (od1 od2 : Str) (pre post : List Str) (d1 d2 : Str),
        cfg.generating_dependencies = true →
        d1.contains ',' = false → d2.contains ',' = false →
        cfg.affects_cpp ("-Wp,-MD,".data ++ d1) = false →
        cfg.affects_cpp ("-Wp,-MD,".data ++ d2) = false →
        cfg.affects_cpp "-W".data = false →
        od1 ≠ "/dev/null".data → od2 ≠ "/dev/null".data →
        consumes_cleanly { cfg with output_dep := od1 } false pre →
        consumes_cleanly { cfg with output_dep := od2 } false pre →
        hash_arg_list { cfg with output_dep := od1 } false pre
          = hash_arg_list { cfg with output_dep := od2 } false pre →
        hash_arg_list { cfg with output_dep := od1 } false post
          = hash_arg_list { cfg with output_dep := od2 } false post →
        result_name_arg_events guessed { cfg with output_dep := od1 }
            (pre ++ ("-Wp,-MD,".data ++ d1) :: post)
          = result_name_arg_events guessed { cfg with output_dep := od2 }
            (pre ++ ("-Wp,-MD,".data ++ d2) :: post))
    ∧ (∀ (cfg : ArgHashCfg) (od1 od2 : Str) (pre post : List Str) (d1 d2 : Str),
        cfg.generating_dependencies = true →
        d1.contains ',' = false → d2.contains ',' = false →
        cfg.affects_cpp ("-Wp,-MMD,".data ++ d1) = false →
        cfg.affects_cpp ("-Wp,-MMD,".data ++ d2) = false →
        cfg.affects_cpp "-W".data = false →
        od1 ≠ "/dev/null".data → od2 ≠ "/dev/null".data →
        consumes_cleanly { cfg with output_dep := od1 } false pre →
        consumes_cleanly { cfg with output_dep := od2 } false pre →
        hash_arg_list { cfg with output_dep := od1 } false pre
          = hash_arg_list { cfg with output_dep := od2 } false pre →
        hash_arg_list { cfg with output_dep := od1 } false post
          = hash_arg_list { cfg with output_dep := od2 } false post →
        result_name_arg_events guessed { cfg with output_dep := od1 }
            (pre ++ ("-Wp,-MMD,".data ++ d1) :: post)
          = result_name_arg_events guessed { cfg with output_dep := od2 }
            (pre ++ ("-Wp,-MMD,".data ++ d2) :: post)) := by
  refine ⟨?_, ?_, ?_, ?_, ?_, ?_, ?_, ?_, ?_, ?_⟩
  · intro cfg pre post d1 d2 hpre
    simp only [result_name_arg_events, hclang]
    rw [hpre ("-L".data :: d1 :: post), hpre ("-L".data :: d2 :: post),
      hash_arg_list_L_sep, hash_arg_list_L_sep]
  · intro cfg pre post d1 d2 hd1 hd2 hpre
    simp only [result_name_arg_events, hclang]
    rw [hpre (("-L".data ++ d1) :: post), hpre (("-L".data ++ d2) :: post),
      hash_arg_list_L_att cfg d1 post hd1, hash_arg_list_L_att cfg d2 post hd2]
  · intro cfg pre post s1 s2 hpre
    simp only [result_name_arg_events, hclang]
    rw [hpre (("-Wl,".data ++ s1) :: post), hpre (("-Wl,".data ++ s2) :: post),
      hash_arg_list_Wl, hash_arg_list_Wl]
  · intro cfg pre post v1 v2 hpre
    simp only [result_name_arg_events, hclang]
    rw [hpre (("-fdebug-prefix-map=".data ++ v1) :: post),
      hpre (("-fdebug-prefix-map=".data ++ v2) :: post),
      hash_arg_list_debug_map, hash_arg_list_debug_map]
  · intro gd hd cwd maps1 maps2 h
    rcases h with h | h <;> simp [hash_cwd_events, h]
  · intro gd hd cwd maps1 maps2 h
    simp [hash_cwd_events, h]
  · intro cfg od1 od2 pre post d1 d2 hgen hMF hM hod1 hod2 hpre1 hpre2 hpre12
      hpost
    simp only [result_name_arg_events, hclang]
    rw [hpre1 ("-MF".data :: d1 :: post), hpre2 ("-MF".data :: d2 :: post),
      hash_arg_list_MF_sep { cfg with output_dep := od1 } d1 post hgen hMF hM
        hod1,
      hash_arg_list_MF_sep { cfg with output_dep := od2 } d2 post hgen hMF hM
        hod2,
      hpre12, hpost]
    simp [hod1, hod2]
  · intro cfg od1 od2 pre post d1 d2 hd1 hd2 hgen haff1 haff2 hM hod1 hod2
      hpre1 hpre2 hpre12 hpost
    simp only [result_name_arg_events, hclang]
    rw [hpre1 (("-MF".data ++ d1) :: post), hpre2 (("-MF".data ++ d2) :: post),
      hash_arg_list_MF_att { cfg with output_dep := od1 } d1 post hd1 hgen
        haff1 hM,
      hash_arg_list_MF_att { cfg with output_dep := od2 } d2 post hd2 hgen
        haff2 hM,
      hpre12, hpost]
    simp [hod1, hod2]
  · intro cfg od1 od2 pre post d1 d2 hgen hc1 hc2 haff1 haff2 hW hod1 hod2
      hpre1 hpre2 hpre12 hpost
    simp only [result_name_arg_events, hclang]
    rw [hpre1 (("-Wp,-MD,".data ++ d1) :: post),
      hpre2 (("-Wp,-MD,".data ++ d2) :: post),
      hash_arg_list_WpMD { cfg with output_dep := od1 } d1 post hgen hc1
        haff1 hW,
      hash_arg_list_WpMD { cfg with output_dep := od2 } d2 post hgen hc2
        haff2 hW,
      hpre12, hpost]
    simp [hod1, hod2]
  · intro cfg od1 od2 pre post d1 d2 hgen hc1 hc2 haff1 haff2 hW hod1 hod2
      hpre1 hpre2 hpre12 hpost
    simp only [result_name_arg_events, hclang]
    rw [hpre1 (("-Wp,-MMD,".data ++ d1) :: post),
      hpre2 (("-Wp,-MMD,".data ++ d2) :: post),
      hash_arg_list_WpMMD { cfg with output_dep := od1 } d1 post hgen hc1
        haff1 hW,
      hash_arg_list_WpMMD { cfg with output_dep := od2 } d2 post hgen hc2
        haff2 hW,
      hpre12, hpost]
    simp [hod1, hod2]

/-- Concrete instance of the amended C5: two gcc invocations differing
only in the -L directory produce the same hash trace. -/
theorem C5_irrelevant_args_witness :
    result_name_arg_events guessed_compiler.gcc
        ⟨false, false, false, false, "a.d".data, fun _ => false,
          fun _ => false, fun _ => false⟩
        ["-L".data, "/lib1".data, "-c".data]
      = result_name_arg_events guessed_compiler.gcc
        ⟨false, false, false, false, "a.d".data, fun _ => false,
          fun _ => false, fun _ => false⟩
        ["-L".data, "/lib2".data, "-c".data] :=
  (C5_irrelevant_args_amended guessed_compiler.gcc rfl).1
    ⟨false, false, false, false, "a.d".data, fun _ => false,
      fun _ => false, fun _ => false⟩
    [] ["-c".data] "/lib1".data "/lib2".data
    (consumes_cleanly_nil _ false)

end Ccache
